import Mathlib

/-!
# EmTest channel and net device

A shallow embedding of `src/emtest/model/emtest-channel.cc` and
`src/emtest/model/emtest-net-device.cc`.

* Objects live in heaps (lists); a `Ptr` is `none` for the null pointer and
  `some a` for the object stored at position `a` of its heap.
* A call that trips an `NS_ASSERT`, dereferences a bad pointer or indexes a
  vector past its end ends with a `Fault`; every other call returns the new
  state together with the C++ return value.
* `Simulator::ScheduleWithContext` appends an `Event` to the list of
  scheduled events.
-/

namespace ns3

/-! ## External types -/

/-- A smart pointer `Ptr<T>`: `none` is `nullptr`, `some a` the object at heap position `a`. -/
abbrev Ptr := Option Nat

/-- The simulator's `Time`, a signed tick count. -/
abbrev Time := Int

/-- A handle on a `Packet`; the channel and device never look inside it. -/
abbrev Packet := Nat

/-- Identity of the calling thread (`std::thread::id`). -/
abbrev ThreadId := Nat

/-- An `Address`: either the default-constructed (unspecified) one or a MAC-48 value. -/
inductive Address where
  | unspecified
  | mac48 (value : Nat)
  deriving DecidableEq, Repr

/-- A `Node` of the simulation; only its id is read here (`Node::GetId`). -/
structure Node where
  m_id : Nat
  deriving DecidableEq, Repr

/-- Accessor `Node::GetId`. -/
def Node.GetId (n : Node) : Nat := n.m_id

/-- The ways a call can end without returning. -/
inductive Fault where
  /-- Raised by `NS_ASSERT(device)`: a null device was passed. -/
  | assertDevice
  /-- Raised by `NS_ASSERT(m_deviceList.size() < 2)`: the channel is full. -/
  | assertCapacity
  /-- Unchecked `operator[]` of `std::vector` past the end: undefined behaviour in C++. -/
  | outOfRange
  /-- Use of `operator->` on a null pointer or on a pointer to no live object. -/
  | badPointer
  deriving DecidableEq, Repr

/-- Modelled from the spec: the `NS_ASSERT` macro (ns3/assert.h) is not among the
sources. The spec has a violated capacity precondition "fail explicitly"; so a
false condition ends the call with the given fault and a true one continues. -/
def NS_ASSERT (cond : Bool) (f : Fault) : Except Fault Unit :=
  if cond then .ok () else .error f

/-- Conversion of an unsigned size to `int32_t`. -/
def toInt32 (n : Nat) : Int :=
  let m := n % 4294967296
  if m < 2147483648 then (m : Int) else (m : Int) - 4294967296

/-- Conversion of an `int32_t` to `uint32_t`. -/
def toUInt32 (i : Int) : Nat := (i % 4294967296).toNat

/-! ## EmTestDeviceRec -/

/-- The record the channel keeps for each attached device. -/
structure EmTestDeviceRec where
  devicePtr : Ptr
  active : Bool
  deriving DecidableEq, Repr

/-- Constructor `EmTestDeviceRec::EmTestDeviceRec(Ptr<EmTestNetDevice> device)`. -/
def EmTestDeviceRec.ctor (device : Ptr) : EmTestDeviceRec :=
  { devicePtr := device, active := true }

/-- Copy constructor `EmTestDeviceRec::EmTestDeviceRec(const EmTestDeviceRec&)`. -/
def EmTestDeviceRec.copy (deviceRec : EmTestDeviceRec) : EmTestDeviceRec :=
  { devicePtr := deviceRec.devicePtr, active := deviceRec.active }

/-- Accessor `EmTestDeviceRec::IsActive`. -/
def EmTestDeviceRec.IsActive (r : EmTestDeviceRec) : Bool := r.active

/-! ## EmTestNetDevice (data) -/

/-- The members of `EmTestNetDevice` that the code reads or writes. Callbacks are
handles, `none` being the null callback. -/
structure EmTestNetDevice where
  m_channel : Ptr
  m_deviceId : Nat
  m_rxCallback : Option Nat
  m_promiscRxCallback : Option Nat
  m_node : Option Node
  deriving DecidableEq, Repr

/-- Accessor `EmTestNetDevice::GetNode`. -/
def EmTestNetDevice.GetNode (d : EmTestNetDevice) : Option Node := d.m_node

/-- Mutator `EmTestNetDevice::SetNode`. -/
def EmTestNetDevice.SetNode (d : EmTestNetDevice) (node : Option Node) : EmTestNetDevice :=
  { d with m_node := node }

/-- Dereference of a pointer into a heap. -/
def deref {α : Type} (heap : List α) (p : Ptr) : Except Fault α :=
  match p with
  | none => .error .badPointer
  | some a =>
    match heap[a]? with
    | none => .error .badPointer
    | some x => .ok x

/-! ## Simulator -/

/-- An event made by `Simulator::ScheduleWithContext(context, delay,
&EmTestNetDevice::Receive, target, packet, src, dest, protocolNumber)`. -/
structure Event where
  context : Nat
  delay : Time
  target : Ptr
  packet : Packet
  src : Address
  dest : Address
  protocolNumber : Nat
  deriving DecidableEq, Repr

/-! ## EmTestChannel -/

/-- The channel object: its list of device records. -/
structure EmTestChannel where
  m_deviceList : List EmTestDeviceRec
  deriving DecidableEq, Repr

/-- Constructor `EmTestChannel::EmTestChannel`: the list is cleared. -/
def EmTestChannel.ctor : EmTestChannel := { m_deviceList := [] }

/-- Unchecked `m_deviceList[i]`. -/
def EmTestChannel.at (ch : EmTestChannel) (i : Nat) : Except Fault EmTestDeviceRec :=
  match ch.m_deviceList[i]? with
  | none => .error .outOfRange
  | some r => .ok r

/-- Accessor `EmTestChannel::GetDevice(i)`. -/
def EmTestChannel.GetDevice (ch : EmTestChannel) (i : Nat) : Except Fault Ptr := do
  let r ← ch.at i
  pure r.devicePtr

/-- Accessor `EmTestChannel::GetNDevices`. -/
def EmTestChannel.GetNDevices (ch : EmTestChannel) : Nat := ch.m_deviceList.length

/-- Method `EmTestChannel::Attach(device)`: returns the channel after the call and
the assigned device number. -/
def EmTestChannel.Attach (ch : EmTestChannel) (device : Ptr) :
    Except Fault (EmTestChannel × Int) := do
  NS_ASSERT device.isSome .assertDevice
  NS_ASSERT (decide (ch.m_deviceList.length < 2)) .assertCapacity
  let rec_ := EmTestDeviceRec.ctor device
  let ch' : EmTestChannel := { m_deviceList := ch.m_deviceList ++ [rec_.copy] }
  pure (ch', toInt32 (ch'.m_deviceList.length - 1))

/-- The loop of `EmTestChannel::Detach`: walks the records in order; at the first
one that holds `device` and is active, clears the flag and stops with `true`. -/
def detachLoop (device : Ptr) : List EmTestDeviceRec → List EmTestDeviceRec × Bool
  | [] => ([], false)
  | it :: rest =>
    if it.devicePtr = device ∧ it.active = true then
      ({ it with active := false } :: rest, true)
    else
      let r := detachLoop device rest
      (it :: r.1, r.2)

/-- Method `EmTestChannel::Detach(device)`. -/
def EmTestChannel.Detach (ch : EmTestChannel) (device : Ptr) :
    Except Fault (EmTestChannel × Bool) := do
  NS_ASSERT device.isSome .assertDevice
  let r := detachLoop device ch.m_deviceList
  pure ({ m_deviceList := r.1 }, r.2)

/-- The function-local statics of `EmTestChannel::TransmitStart`. They belong to
the function, not to a channel object: all channels share them.
`last_thread_id` is `none` until the first call initialises it. -/
structure TxStatics where
  last_thread_id : Option ThreadId
  last_time : Time
  deriving DecidableEq, Repr

/-- The statics before the first call of `TransmitStart`. -/
def TxStatics.initial : TxStatics := { last_thread_id := none, last_time := 0 }

/-- What `TransmitStart` reads from outside the channel object: the current time
(`Simulator::Now()`), the calling thread and the heap of net devices. -/
structure TxEnv where
  now : Time
  thread : ThreadId
  devices : List EmTestNetDevice
  deriving DecidableEq, Repr

/-- What a returning call of `TransmitStart` leaves behind. -/
structure TxOutcome where
  /-- The channel after the call. -/
  channel : EmTestChannel
  /-- The function statics after the call. -/
  statics : TxStatics
  /-- The events handed to `Simulator::ScheduleWithContext`, in order. -/
  scheduled : List Event
  /-- The diagnostic records written, in order. -/
  diagnostics : List String
  /-- The C++ return value. -/
  ret : Bool
  deriving DecidableEq, Repr

/-- Method `EmTestChannel::TransmitStart(p, src, dest, protocolNumber, srcId)`.
The body runs under `m_mutex` from its first statement to its return, so a call
is one step here. -/
def EmTestChannel.TransmitStart (ch : EmTestChannel) (st : TxStatics) (env : TxEnv)
    (p : Packet) (src dest : Address) (protocolNumber : Nat) (srcId : Nat) :
    Except Fault TxOutcome := do
  -- static initialisation on the first call
  let st0 : TxStatics :=
    { last_thread_id := some (st.last_thread_id.getD env.thread), last_time := st.last_time }
  let now_time := env.now
  -- the body of the comparison is commented out in the source: nothing is written
  let diagnostics : List String := if now_time < st0.last_time then [] else []
  let st1 : TxStatics := { last_thread_id := some env.thread, last_time := now_time }
  let tar_device ← (ch.at ((srcId ^^^ 1) % 4294967296)).map EmTestDeviceRec.copy
  let dev ← deref env.devices tar_device.devicePtr
  let node ← match dev.GetNode with
    | none => Except.error Fault.badPointer
    | some n => Except.ok n
  let ev : Event :=
    { context := node.GetId, delay := 0, target := tar_device.devicePtr,
      packet := p, src := src, dest := dest, protocolNumber := protocolNumber }
  pure { channel := ch, statics := st1, scheduled := [ev], diagnostics := diagnostics,
         ret := true }

/-! ## A caller of one link -/

/-- One call made on a link by its user. -/
inductive LinkCall where
  | Attach (device : Ptr)
  | Detach (device : Ptr)
  | TransmitStart (env : TxEnv) (p : Packet) (src dest : Address) (protocolNumber : Nat)
      (srcId : Nat)
  deriving DecidableEq, Repr

/-- A link together with what its calls have produced so far. -/
structure LinkState where
  channel : EmTestChannel
  statics : TxStatics
  events : List Event
  diagnostics : List String
  deriving DecidableEq, Repr

/-- A freshly constructed link: no record, nothing scheduled. -/
def LinkState.fresh : LinkState :=
  { channel := EmTestChannel.ctor, statics := TxStatics.initial, events := [],
    diagnostics := [] }

/-- The state after one call. A call that ends with a fault changes nothing:
the state it leaves is the state before it. -/
def LinkState.call (s : LinkState) : LinkCall → LinkState
  | .Attach device =>
    match s.channel.Attach device with
    | .ok (ch', _) => { s with channel := ch' }
    | .error _ => s
  | .Detach device =>
    match s.channel.Detach device with
    | .ok (ch', _) => { s with channel := ch' }
    | .error _ => s
  | .TransmitStart env p src dest protocolNumber srcId =>
    match s.channel.TransmitStart s.statics env p src dest protocolNumber srcId with
    | .ok out =>
      { channel := out.channel, statics := out.statics,
        events := s.events ++ out.scheduled,
        diagnostics := s.diagnostics ++ out.diagnostics }
    | .error _ => s

/-- The state after a finite sequence of calls, first call first. -/
def LinkState.run (s : LinkState) (calls : List LinkCall) : LinkState :=
  calls.foldl LinkState.call s

/-- Successive `Attach` calls on one channel, one for each endpoint of the list. -/
def attachAll (ch : EmTestChannel) : List Nat → Except Fault EmTestChannel
  | [] => .ok ch
  | e :: es =>
    match ch.Attach (some e) with
    | .ok (ch', _) => attachAll ch' es
    | .error f => .error f

/-! ## EmTestNetDevice (methods) -/

/-- The objects of a simulation: the heaps of net devices and channels, the
statics of `TransmitStart`, and what has been scheduled and reported. -/
structure World where
  devices : List EmTestNetDevice
  channels : List EmTestChannel
  statics : TxStatics
  events : List Event
  diagnostics : List String
  deriving DecidableEq, Repr

/-- Method `EmTestNetDevice::Attach(ch)` called on the device at `this`. -/
def EmTestNetDevice.Attach (w : World) (this : Nat) (ch : Ptr) :
    Except Fault (World × Bool) := do
  let self ← deref w.devices (some this)
  -- m_channel = ch
  let self1 : EmTestNetDevice := { self with m_channel := ch }
  -- m_deviceId = m_channel->Attach(this)
  match self1.m_channel with
  | none => .error .badPointer
  | some c =>
    let chan ← deref w.channels (some c)
    let r ← chan.Attach (some this)
    let self2 : EmTestNetDevice := { self1 with m_deviceId := toUInt32 r.2 }
    pure ({ w with devices := w.devices.set this self2,
                   channels := w.channels.set c r.1 }, true)

/-- Method `EmTestNetDevice::SendFrom(packet, src, dest, protocolNumber)` called on
the device at `this`, at simulated time `now` from thread `thread`. -/
def EmTestNetDevice.SendFrom (w : World) (now : Time) (thread : ThreadId) (this : Nat)
    (packet : Packet) (src dest : Address) (protocolNumber : Nat) :
    Except Fault (World × Bool) := do
  let self ← deref w.devices (some this)
  match self.m_channel with
  | none => .error .badPointer
  | some c =>
    let chan ← deref w.channels (some c)
    let out ← chan.TransmitStart w.statics
      { now := now, thread := thread, devices := w.devices }
      packet src dest protocolNumber self.m_deviceId
    -- the value returned by TransmitStart is dropped
    pure ({ w with channels := w.channels.set c out.channel,
                   statics := out.statics,
                   events := w.events ++ out.scheduled,
                   diagnostics := w.diagnostics ++ out.diagnostics }, true)

/-- Method `EmTestNetDevice::Send(packet, dest, protocolNumber)`. -/
def EmTestNetDevice.Send (w : World) (now : Time) (thread : ThreadId) (this : Nat)
    (packet : Packet) (dest : Address) (protocolNumber : Nat) :
    Except Fault (World × Bool) :=
  EmTestNetDevice.SendFrom w now thread this packet Address.unspecified dest protocolNumber

/-- The `NetDevice::PacketType` of a received packet. -/
inductive PacketType where
  | PACKET_HOST
  | PACKET_BROADCAST
  | PACKET_MULTICAST
  | PACKET_OTHERHOST
  deriving DecidableEq, Repr

/-- One invocation of a callback held by a device. `promiscRx` is a call of a
`NetDevice::PromiscReceiveCallback` (device, packet, protocol, source,
destination, packet type); `rx` is a call of a `NetDevice::ReceiveCallback`
(device, packet, protocol, source). -/
inductive SinkCall where
  | promiscRx (cb : Nat) (device : Ptr) (packet : Packet) (protocol : Nat)
      (src dest : Address) (packetType : PacketType)
  | rx (cb : Nat) (device : Ptr) (packet : Packet) (protocol : Nat) (src : Address)
  deriving DecidableEq, Repr

/-- Tells whether an invocation is one of the receive callback `cb`. -/
def SinkCall.isRxOf (cb : Nat) : SinkCall → Bool
  | .rx c _ _ _ _ => decide (c = cb)
  | .promiscRx _ _ _ _ _ _ _ => false

/-- Mutator `EmTestNetDevice::SetReceiveCallback(cb)`. -/
def EmTestNetDevice.SetReceiveCallback (d : EmTestNetDevice) (cb : Option Nat) :
    EmTestNetDevice :=
  { d with m_rxCallback := cb }

/-- Mutator `EmTestNetDevice::SetPromiscReceiveCallback(cb)`: returns the device and
the text written by `printf`. -/
def EmTestNetDevice.SetPromiscReceiveCallback (d : EmTestNetDevice) (cb : Option Nat) :
    EmTestNetDevice × List String :=
  ({ d with m_promiscRxCallback := cb }, ["EmTestNetDevice::SetPromiscReceiveCallback\n"])

/-- Method `EmTestNetDevice::Receive(packet, src, dest, protocolNumber)` called on
the device at `this`: returns the world after the call and the callbacks it
invoked, in order. What an invoked callback does itself is outside the device. -/
def EmTestNetDevice.Receive (w : World) (this : Nat) (packet : Packet)
    (src dest : Address) (protocolNumber : Nat) : Except Fault (World × List SinkCall) := do
  let self ← deref w.devices (some this)
  -- if (!m_promiscRxCallback.IsNull())
  match self.m_promiscRxCallback with
  | some cb =>
    pure (w, [SinkCall.promiscRx cb (some this) packet protocolNumber src dest
                PacketType.PACKET_HOST])
  | none => pure (w, [])

/-- Execution of a scheduled event by the simulator: the bound
`EmTestNetDevice::Receive` is called on the target with the bound arguments. -/
def Event.invoke (w : World) (ev : Event) : Except Fault (World × List SinkCall) :=
  match ev.target with
  | none => .error .badPointer
  | some t => EmTestNetDevice.Receive w t ev.packet ev.src ev.dest ev.protocolNumber

/-- Registration of a receive callback on the device at `this` of a world. -/
def World.SetReceiveCallback (w : World) (this : Nat) (cb : Option Nat) :
    Except Fault World := do
  let self ← deref w.devices (some this)
  pure { w with devices := w.devices.set this (self.SetReceiveCallback cb) }

/-- Registration of a promiscuous callback on the device at `this` of a world. -/
def World.SetPromiscReceiveCallback (w : World) (this : Nat) (cb : Option Nat) :
    Except Fault World := do
  let self ← deref w.devices (some this)
  pure { w with devices := w.devices.set this (self.SetPromiscReceiveCallback cb).1 }

/-- Execution of a list of scheduled events in order; returns the world after the
last one and all callbacks invoked, in order. -/
def invokeAll (w : World) : List Event → Except Fault (World × List SinkCall)
  | [] => .ok (w, [])
  | ev :: evs =>
    match ev.invoke w with
    | .error f => .error f
    | .ok r1 =>
      match invokeAll r1.1 evs with
      | .error f => .error f
      | .ok r2 => .ok (r2.1, r1.2 ++ r2.2)

/-- A caller's session: X and Y attach to channel 0 of `w`, Y registers the
receive callback `cb`, X sends `frame` to `dest` with protocol `proto` (at time 5,
from thread 1), and the events scheduled by the send are executed. Returns the
events the send scheduled and the callbacks their execution invoked. -/
def sendAndDeliver (w : World) (x y : Nat) (cb : Nat) (frame : Packet) (dest : Address)
    (proto : Nat) : Except Fault (List Event × List SinkCall) := do
  let r1 ← EmTestNetDevice.Attach w x (some 0)
  let r2 ← EmTestNetDevice.Attach r1.1 y (some 0)
  let w3 ← r2.1.SetReceiveCallback y (some cb)
  let r4 ← EmTestNetDevice.Send w3 5 1 x frame dest proto
  let scheduled := r4.1.events.drop w3.events.length
  let r5 ← invokeAll r4.1 scheduled
  pure (scheduled, r5.2)

/-! ## EmTestNetDevice (address, multicast and MTU queries) -/

/-- Modelled from the spec: `Mac48Address::Allocate` (network module) is not among
the sources and the spec does not describe it. It is modelled after its use by
the installer, `device->SetAddress(Mac48Address::Allocate())` once per device,
one address of its own for each: a global 64-bit counter `m_allocationIndex` is
advanced and the address made of its low 48 bits is returned. Takes the counter
and returns the address with the counter after the call. -/
def Mac48Address.Allocate (m_allocationIndex : Nat) : Address × Nat :=
  let next := (m_allocationIndex + 1) % 18446744073709551616
  (Address.mac48 (next % 281474976710656), next)

/-- Mutator `EmTestNetDevice::SetAddress(address)`: the body is empty. -/
def EmTestNetDevice.SetAddress (d : EmTestNetDevice) (_address : Address) :
    EmTestNetDevice := d

/-- Accessor `EmTestNetDevice::GetAddress`: returns `Mac48Address::Allocate()`.
Takes the allocation counter and returns it as the call leaves it. -/
def EmTestNetDevice.GetAddress (_d : EmTestNetDevice) (m_allocationIndex : Nat) :
    Address × Nat :=
  Mac48Address.Allocate m_allocationIndex

/-- Accessor `EmTestNetDevice::IsBroadcast`. -/
def EmTestNetDevice.IsBroadcast (_d : EmTestNetDevice) : Bool := true

/-- Accessor `EmTestNetDevice::GetBroadcast`: `Mac48Address("ff:ff:ff:ff:ff:ff")`. -/
def EmTestNetDevice.GetBroadcast (_d : EmTestNetDevice) : Address :=
  Address.mac48 0xffffffffffff

/-- Accessor `EmTestNetDevice::IsMulticast`. -/
def EmTestNetDevice.IsMulticast (_d : EmTestNetDevice) : Bool := true

/-- Accessor `EmTestNetDevice::GetMulticast(Ipv4Address multicastGroup)`. The static
function `Mac48Address::GetMulticast(Ipv4Address)` is not among the sources and
is the parameter `mcast4`. -/
def EmTestNetDevice.GetMulticast (mcast4 : Nat → Address) (_d : EmTestNetDevice)
    (multicastGroup : Nat) : Address :=
  let ad := mcast4 multicastGroup
  ad

/-- Accessor `EmTestNetDevice::GetMulticast(Ipv6Address addr)`. The static function
`Mac48Address::GetMulticast(Ipv6Address)` is not among the sources and is the
parameter `mcast6`. -/
def EmTestNetDevice.GetMulticast6 (mcast6 : Nat → Address) (_d : EmTestNetDevice)
    (addr : Nat) : Address :=
  let ad := mcast6 addr
  ad

/-- Mutator `EmTestNetDevice::SetMtu(mtu)`: stores nothing and returns true. -/
def EmTestNetDevice.SetMtu (d : EmTestNetDevice) (_mtu : Nat) : EmTestNetDevice × Bool :=
  (d, true)

/-- Accessor `EmTestNetDevice::GetMtu`. -/
def EmTestNetDevice.GetMtu (_d : EmTestNetDevice) : Nat := 1500

/-! ## Concrete objects used to evaluate the code -/

/-- A device on node 7 that was never attached. -/
def devA : EmTestNetDevice :=
  { m_channel := none, m_deviceId := 0, m_rxCallback := none,
    m_promiscRxCallback := none, m_node := some { m_id := 7 } }

/-- A device on node 8 that was never attached. -/
def devB : EmTestNetDevice :=
  { m_channel := none, m_deviceId := 0, m_rxCallback := none,
    m_promiscRxCallback := none, m_node := some { m_id := 8 } }

/-- A channel holding devices 0 and 1, both active. -/
def chanAB : EmTestChannel :=
  { m_deviceList := [{ devicePtr := some 0, active := true },
                     { devicePtr := some 1, active := true }] }

/-- A channel holding device 0 only. -/
def chanA : EmTestChannel :=
  { m_deviceList := [{ devicePtr := some 0, active := true }] }

/-- An environment at time 5, thread 1, with `devA` at 0 and `devB` at 1. -/
def envAB : TxEnv := { now := 5, thread := 1, devices := [devA, devB] }

/-- A world with `devA` at 0, `devB` at 1 and one fresh channel at 0. -/
def worldAB : World :=
  { devices := [devA, devB], channels := [EmTestChannel.ctor],
    statics := TxStatics.initial, events := [], diagnostics := [] }


/-- The world `worldAB` after device 0 and then device 1 attached to channel 0. -/
def worldAttached : World :=
  { devices := [{ devA with m_channel := some 0, m_deviceId := 0 },
                { devB with m_channel := some 0, m_deviceId := 1 }],
    channels := [chanAB], statics := TxStatics.initial, events := [], diagnostics := [] }

/-- A channel holding devices 0 and 1 where device 1 was detached. -/
def chanABdetached : EmTestChannel :=
  { m_deviceList := [{ devicePtr := some 0, active := true },
                     { devicePtr := some 1, active := false }] }

/-- A channel holding devices 0 and 1 where device 0 was detached. -/
def chanABdetached0 : EmTestChannel :=
  { m_deviceList := [{ devicePtr := some 0, active := false },
                     { devicePtr := some 1, active := true }] }

/-- A device on node 9 holding the receive callback 77 and the promiscuous
callback 88. -/
def devBoth : EmTestNetDevice :=
  { m_channel := none, m_deviceId := 0, m_rxCallback := some 77,
    m_promiscRxCallback := some 88, m_node := some { m_id := 9 } }

/-- A device on node 9 holding the receive callback 77 only. -/
def devRxOnly : EmTestNetDevice :=
  { m_channel := none, m_deviceId := 0, m_rxCallback := some 77,
    m_promiscRxCallback := none, m_node := some { m_id := 9 } }

/-- A world with `devBoth` at 0 and `devRxOnly` at 1. -/
def worldSinks : World :=
  { devices := [devBoth, devRxOnly], channels := [], statics := TxStatics.initial,
    events := [], diagnostics := [] }

/-- A world with two links: devices 0 and 1 (nodes 7 and 8) on channel 0, devices
2 and 3 (nodes 7 and 8) on channel 1. -/
def worldTwoLinks : World :=
  { devices := [{ devA with m_channel := some 0, m_deviceId := 0 },
                { devB with m_channel := some 0, m_deviceId := 1 },
                { devA with m_channel := some 1, m_deviceId := 0 },
                { devB with m_channel := some 1, m_deviceId := 1 }],
    channels := [chanAB,
                 { m_deviceList := [{ devicePtr := some 2, active := true },
                                    { devicePtr := some 3, active := true }] }],
    statics := TxStatics.initial, events := [], diagnostics := [] }

/-! ## Lemmas on Attach -/

theorem toInt32_small (n : Nat) (h : n < 2147483648) : toInt32 n = (n : Int) := by
  unfold toInt32
  have h1 : n % 4294967296 = n := Nat.mod_eq_of_lt (by omega)
  simp only [h1]
  simp [h]

theorem Attach_of_room (ch : EmTestChannel) (e : Nat) (h : ch.m_deviceList.length < 2) :
    ch.Attach (some e) =
      .ok ({ m_deviceList := ch.m_deviceList ++ [{ devicePtr := some e, active := true }] },
           (ch.m_deviceList.length : Int)) := by
  have h2 : toInt32 ch.m_deviceList.length = (ch.m_deviceList.length : Int) :=
    toInt32_small _ (by omega)
  simp [EmTestChannel.Attach, NS_ASSERT, h, bind, Except.bind, pure, Except.pure,
    EmTestDeviceRec.ctor, EmTestDeviceRec.copy, h2]

theorem Attach_of_full (ch : EmTestChannel) (e : Nat) (h : 2 ≤ ch.m_deviceList.length) :
    ch.Attach (some e) = .error .assertCapacity := by
  have h' : ¬ ch.m_deviceList.length < 2 := by omega
  simp [EmTestChannel.Attach, NS_ASSERT, h', bind, Except.bind]

theorem Attach_null (ch : EmTestChannel) : ch.Attach none = .error .assertDevice := by
  simp [EmTestChannel.Attach, NS_ASSERT, bind, Except.bind]

theorem Attach_ok_inv (ch ch' : EmTestChannel) (device : Ptr) (i : Int)
    (h : ch.Attach device = .ok (ch', i)) :
    ch.m_deviceList.length < 2 ∧
      ch'.m_deviceList = ch.m_deviceList ++ [{ devicePtr := device, active := true }] ∧
      i = (ch.m_deviceList.length : Int) := by
  cases device with
  | none => rw [Attach_null] at h; cases h
  | some e =>
    by_cases hl : ch.m_deviceList.length < 2
    · rw [Attach_of_room ch e hl] at h
      injection h with h
      injection h with h1 h2
      subst h1; subst h2
      exact ⟨hl, rfl, rfl⟩
    · rw [Attach_of_full ch e (by omega)] at h; cases h

/-! ## Lemmas on Detach -/

theorem detachLoop_length (device : Ptr) (l : List EmTestDeviceRec) :
    (detachLoop device l).1.length = l.length := by
  induction l with
  | nil => rfl
  | cons it rest ih =>
    unfold detachLoop
    split
    · rfl
    · simp [ih]

theorem detachLoop_map_devicePtr (device : Ptr) (l : List EmTestDeviceRec) :
    (detachLoop device l).1.map EmTestDeviceRec.devicePtr = l.map EmTestDeviceRec.devicePtr := by
  induction l with
  | nil => rfl
  | cons it rest ih =>
    unfold detachLoop
    split
    · rfl
    · simp [ih]

theorem Detach_some (ch : EmTestChannel) (e : Nat) :
    ch.Detach (some e) =
      .ok ({ m_deviceList := (detachLoop (some e) ch.m_deviceList).1 },
           (detachLoop (some e) ch.m_deviceList).2) := by
  simp [EmTestChannel.Detach, NS_ASSERT, bind, Except.bind, pure, Except.pure]

theorem Detach_null (ch : EmTestChannel) : ch.Detach none = .error .assertDevice := by
  simp [EmTestChannel.Detach, NS_ASSERT, bind, Except.bind]

theorem Detach_ok_inv (ch ch' : EmTestChannel) (device : Ptr) (b : Bool)
    (h : ch.Detach device = .ok (ch', b)) :
    ch'.m_deviceList = (detachLoop device ch.m_deviceList).1 ∧
      b = (detachLoop device ch.m_deviceList).2 := by
  cases device with
  | none => rw [Detach_null] at h; cases h
  | some e =>
    rw [Detach_some] at h
    injection h with h
    injection h with h1 h2
    subst h1; subst h2
    exact ⟨rfl, rfl⟩

theorem detachLoop_not_found (device : Ptr) (l : List EmTestDeviceRec)
    (h : ∀ r ∈ l, ¬ (r.devicePtr = device ∧ r.active = true)) :
    detachLoop device l = (l, false) := by
  induction l with
  | nil => rfl
  | cons it rest ih =>
    have hit : ¬ (it.devicePtr = device ∧ it.active = true) := h it (List.mem_cons_self _ _)
    have hrest := ih (fun r hr => h r (List.mem_cons_of_mem _ hr))
    unfold detachLoop
    rw [if_neg hit, hrest]

theorem detachLoop_found (device : Ptr) (l : List EmTestDeviceRec)
    (h : ∃ r ∈ l, r.devicePtr = device ∧ r.active = true) :
    ∃ i r, l[i]? = some r ∧ r.devicePtr = device ∧ r.active = true ∧
      (∀ j r', j < i → l[j]? = some r' → ¬ (r'.devicePtr = device ∧ r'.active = true)) ∧
      detachLoop device l = (l.set i { r with active := false }, true) := by
  induction l with
  | nil => obtain ⟨r, hr, _⟩ := h; cases hr
  | cons it rest ih =>
    by_cases hit : it.devicePtr = device ∧ it.active = true
    · refine ⟨0, it, by simp, hit.1, hit.2, ?_, ?_⟩
      · intro j r' hj; omega
      · unfold detachLoop; rw [if_pos hit]; rfl
    · have hrest : ∃ r ∈ rest, r.devicePtr = device ∧ r.active = true := by
        obtain ⟨r, hr, hP⟩ := h
        rcases List.mem_cons.mp hr with heq | hmem
        · subst heq; exact absurd hP hit
        · exact ⟨r, hmem, hP⟩
      obtain ⟨i, r, hget, hd, ha, hfirst, hloop⟩ := ih hrest
      refine ⟨i + 1, r, by simpa using hget, hd, ha, ?_, ?_⟩
      · intro j r' hj hgetj
        cases j with
        | zero =>
          simp at hgetj
          subst hgetj
          exact hit
        | succ j => exact hfirst j r' (by omega) (by simpa using hgetj)
      · unfold detachLoop; rw [if_neg hit, hloop]; rfl

theorem detachLoop_snd_iff (device : Ptr) (l : List EmTestDeviceRec) :
    (detachLoop device l).2 = true ↔ ∃ r ∈ l, r.devicePtr = device ∧ r.active = true := by
  constructor
  · intro hb
    by_contra hne
    have hall : ∀ r ∈ l, ¬ (r.devicePtr = device ∧ r.active = true) :=
      fun r hr hP => hne ⟨r, hr, hP⟩
    rw [detachLoop_not_found device l hall] at hb
    cases hb
  · intro hex
    obtain ⟨i, r, _, _, _, _, hloop⟩ := detachLoop_found device l hex
    rw [hloop]

theorem detachLoop_once (device : Ptr) (l : List EmTestDeviceRec)
    (h : l.countP (fun r => decide (r.devicePtr = device)) ≤ 1) :
    ∀ r ∈ (detachLoop device l).1, r.devicePtr = device → r.active = false := by
  induction l with
  | nil => intro r hr; cases hr
  | cons it rest ih =>
    intro r hr hd
    unfold detachLoop at hr
    by_cases hit : it.devicePtr = device ∧ it.active = true
    · rw [if_pos hit] at hr
      rcases List.mem_cons.mp hr with heq | hmem
      · rw [heq]
      · exfalso
        have hc := List.countP_cons (fun r => decide (r.devicePtr = device)) it rest
        simp only [hit.1, decide_True, if_true] at hc
        have h0 : rest.countP (fun r => decide (r.devicePtr = device)) = 0 := by
          omega
        rw [List.countP_eq_zero] at h0
        have := h0 r hmem
        simp [hd] at this
    · rw [if_neg hit] at hr
      rcases List.mem_cons.mp hr with heq | hmem
      · subst heq
        cases hact : r.active with
        | false => rfl
        | true => exact absurd ⟨hd, hact⟩ hit
      · have hle : rest.countP (fun r => decide (r.devicePtr = device)) ≤ 1 := by
          have := List.countP_cons (fun r => decide (r.devicePtr = device)) it rest
          omega
        exact ih hle r hmem hd

theorem GetDevice_eq_map (ch : EmTestChannel) (i : Nat) :
    ch.GetDevice i =
      match (ch.m_deviceList.map EmTestDeviceRec.devicePtr)[i]? with
      | none => .error .outOfRange
      | some d => .ok d := by
  unfold EmTestChannel.GetDevice EmTestChannel.at
  cases hr : ch.m_deviceList[i]? with
  | none => simp [hr, bind, Except.bind]
  | some r => simp [hr, bind, Except.bind, pure, Except.pure]

/-! ## Lemmas on TransmitStart -/

theorem TransmitStart_ok_inv (ch : EmTestChannel) (st : TxStatics) (env : TxEnv)
    (p : Packet) (src dest : Address) (protocolNumber srcId : Nat) (out : TxOutcome)
    (h : ch.TransmitStart st env p src dest protocolNumber srcId = .ok out) :
    out.channel = ch ∧ out.ret = true ∧
      out.statics = { last_thread_id := some env.thread, last_time := env.now } ∧
      out.diagnostics = [] ∧
      ∃ r dev node, ch.m_deviceList[(srcId ^^^ 1) % 4294967296]? = some r ∧
        env.devices[r.devicePtr.getD 0]? = some dev ∧ r.devicePtr.isSome = true ∧
        dev.m_node = some node ∧
        out.scheduled = [{ context := node.m_id, delay := 0, target := r.devicePtr,
                           packet := p, src := src, dest := dest,
                           protocolNumber := protocolNumber }] := by
  unfold EmTestChannel.TransmitStart EmTestChannel.at at h
  cases hr : ch.m_deviceList[(srcId ^^^ 1) % 4294967296]? with
  | none => simp [hr, bind, Except.bind, Except.map] at h
  | some r =>
    obtain ⟨dp, act⟩ := r
    cases dp with
    | none => simp [hr, bind, Except.bind, Except.map, deref, EmTestDeviceRec.copy] at h
    | some a =>
      cases hd : env.devices[a]? with
      | none => simp [hr, hd, bind, Except.bind, Except.map, deref, EmTestDeviceRec.copy] at h
      | some dev =>
        cases hn : dev.m_node with
        | none =>
          simp [hr, hd, hn, bind, Except.bind, Except.map, deref, EmTestDeviceRec.copy,
            EmTestNetDevice.GetNode] at h
        | some node =>
          simp [hr, hd, hn, bind, Except.bind, Except.map, deref, EmTestDeviceRec.copy,
            EmTestNetDevice.GetNode, pure, Except.pure, Node.GetId] at h
          subst h
          refine ⟨rfl, rfl, rfl, by simp, ⟨some a, act⟩, dev, node, rfl, ?_, rfl, hn, rfl⟩
          simpa using hd


/-! ## Lemmas on sequences of calls -/

theorem attachAll_room (es : List Nat) (ch : EmTestChannel)
    (h : ch.m_deviceList.length + es.length ≤ 2) :
    ∃ ch', attachAll ch es = .ok ch' ∧
      ch'.m_deviceList.length = ch.m_deviceList.length + es.length := by
  induction es generalizing ch with
  | nil => exact ⟨ch, rfl, rfl⟩
  | cons e es ih =>
    have hl : ch.m_deviceList.length < 2 := by simp at h; omega
    unfold attachAll
    rw [Attach_of_room ch e hl]
    have hlen : (ch.m_deviceList ++ [({ devicePtr := some e, active := true } :
        EmTestDeviceRec)]).length = ch.m_deviceList.length + 1 := by simp
    obtain ⟨ch', h1, h2⟩ := ih
      { m_deviceList := ch.m_deviceList ++ [{ devicePtr := some e, active := true }] }
      (by simp at h ⊢; omega)
    refine ⟨ch', h1, ?_⟩
    rw [h2, hlen]; simp; omega

theorem call_channel_cases (s : LinkState) (c : LinkCall) :
    (s.call c).channel = s.channel ∨
      (∃ device i, s.channel.Attach device = .ok ((s.call c).channel, i)) ∨
      (∃ device b, s.channel.Detach device = .ok ((s.call c).channel, b)) := by
  cases c with
  | Attach device =>
    simp only [LinkState.call]
    cases h : s.channel.Attach device with
    | error f => exact Or.inl rfl
    | ok r => obtain ⟨c1, i⟩ := r; exact Or.inr (Or.inl ⟨device, i, h⟩)
  | Detach device =>
    simp only [LinkState.call]
    cases h : s.channel.Detach device with
    | error f => exact Or.inl rfl
    | ok r => obtain ⟨c1, b⟩ := r; exact Or.inr (Or.inr ⟨device, b, h⟩)
  | TransmitStart env p src dest protocolNumber srcId =>
    simp only [LinkState.call]
    cases h : s.channel.TransmitStart s.statics env p src dest protocolNumber srcId with
    | error f => exact Or.inl rfl
    | ok out =>
      exact Or.inl (TransmitStart_ok_inv _ _ _ _ _ _ _ _ _ h).1

theorem call_length_le_two (s : LinkState) (c : LinkCall)
    (h : s.channel.m_deviceList.length ≤ 2) :
    (s.call c).channel.m_deviceList.length ≤ 2 := by
  rcases call_channel_cases s c with h1 | ⟨device, i, h1⟩ | ⟨device, b, h1⟩
  · rw [h1]; exact h
  · obtain ⟨hl, hlist, _⟩ := Attach_ok_inv _ _ _ _ h1
    rw [hlist]; simp; omega
  · obtain ⟨hlist, _⟩ := Detach_ok_inv _ _ _ _ h1
    rw [hlist, detachLoop_length]; exact h

theorem run_length_le_two (calls : List LinkCall) (s : LinkState)
    (h : s.channel.m_deviceList.length ≤ 2) :
    (s.run calls).channel.m_deviceList.length ≤ 2 := by
  induction calls generalizing s with
  | nil => exact h
  | cons c cs ih => exact ih (s.call c) (call_length_le_two s c h)

theorem GetDevice_ok_inv (ch : EmTestChannel) (i : Nat) (d : Ptr)
    (h : ch.GetDevice i = .ok d) :
    ∃ r, ch.m_deviceList[i]? = some r ∧ r.devicePtr = d := by
  unfold EmTestChannel.GetDevice EmTestChannel.at at h
  cases hr : ch.m_deviceList[i]? with
  | none => simp [hr, bind, Except.bind] at h
  | some r =>
    simp [hr, bind, Except.bind, pure, Except.pure] at h
    exact ⟨r, rfl, h⟩

theorem GetDevice_of_getElem (ch : EmTestChannel) (i : Nat) (r : EmTestDeviceRec)
    (h : ch.m_deviceList[i]? = some r) : ch.GetDevice i = .ok r.devicePtr := by
  simp [EmTestChannel.GetDevice, EmTestChannel.at, h, bind, Except.bind, pure, Except.pure]

theorem TransmitStart_of_peer (ch : EmTestChannel) (st : TxStatics) (env : TxEnv)
    (p : Packet) (src dest : Address) (protocolNumber srcId : Nat)
    (r : EmTestDeviceRec) (peer : Nat) (dev : EmTestNetDevice) (node : Node)
    (hr : ch.m_deviceList[(srcId ^^^ 1) % 4294967296]? = some r)
    (hp : r.devicePtr = some peer)
    (hdev : env.devices[peer]? = some dev) (hnode : dev.m_node = some node) :
    ch.TransmitStart st env p src dest protocolNumber srcId =
      .ok { channel := ch,
            statics := { last_thread_id := some env.thread, last_time := env.now },
            scheduled := [{ context := node.m_id, delay := 0, target := some peer,
                            packet := p, src := src, dest := dest,
                            protocolNumber := protocolNumber }],
            diagnostics := [], ret := true } := by
  simp [EmTestChannel.TransmitStart, EmTestChannel.at, hr, hp, hdev, hnode, bind,
    Except.bind, Except.map, deref, EmTestDeviceRec.copy, EmTestNetDevice.GetNode, pure,
    Except.pure, Node.GetId]

theorem call_keeps_devicePtr (s : LinkState) (c : LinkCall) (k : Nat) (d : Ptr)
    (h : (s.channel.m_deviceList.map EmTestDeviceRec.devicePtr)[k]? = some d) :
    ((s.call c).channel.m_deviceList.map EmTestDeviceRec.devicePtr)[k]? = some d := by
  rcases call_channel_cases s c with h1 | ⟨device, i, h1⟩ | ⟨device, b, h1⟩
  · rw [h1]; exact h
  · obtain ⟨_, hlist, _⟩ := Attach_ok_inv _ _ _ _ h1
    rw [hlist, List.map_append]
    have hk : k < (s.channel.m_deviceList.map EmTestDeviceRec.devicePtr).length := by
      by_contra hge
      rw [List.getElem?_eq_none (by omega)] at h
      cases h
    rw [List.getElem?_append_left hk]
    exact h
  · obtain ⟨hlist, _⟩ := Detach_ok_inv _ _ _ _ h1
    rw [hlist, detachLoop_map_devicePtr]; exact h

theorem run_keeps_devicePtr (calls : List LinkCall) (s : LinkState) (k : Nat) (d : Ptr)
    (h : (s.channel.m_deviceList.map EmTestDeviceRec.devicePtr)[k]? = some d) :
    ((s.run calls).channel.m_deviceList.map EmTestDeviceRec.devicePtr)[k]? = some d := by
  induction calls generalizing s with
  | nil => exact h
  | cons c cs ih => exact ih (s.call c) (call_keeps_devicePtr s c k d h)

/-! ## Lemmas on the net device methods -/

theorem toUInt32_small (n : Nat) (h : n < 4294967296) : toUInt32 (n : Int) = n := by
  unfold toUInt32
  have h1 : ((n : Int) % 4294967296) = (n : Int) := Int.emod_eq_of_lt (by omega) (by omega)
  rw [h1]; simp

theorem deref_some {α : Type} (heap : List α) (a : Nat) (x : α) (h : heap[a]? = some x) :
    deref heap (some a) = .ok x := by
  simp [deref, h]

theorem NetDevice_Attach_of_room (w : World) (this c : Nat) (d : EmTestNetDevice)
    (chan : EmTestChannel) (hd : w.devices[this]? = some d)
    (hc : w.channels[c]? = some chan) (hroom : chan.m_deviceList.length < 2) :
    EmTestNetDevice.Attach w this (some c) =
      .ok ({ w with
              devices := w.devices.set this
                { d with m_channel := some c, m_deviceId := chan.m_deviceList.length },
              channels := w.channels.set c
                { m_deviceList := chan.m_deviceList ++
                    [{ devicePtr := some this, active := true }] } }, true) := by
  have hu : toUInt32 (chan.m_deviceList.length : Int) = chan.m_deviceList.length :=
    toUInt32_small _ (by omega)
  simp [EmTestNetDevice.Attach, deref_some _ _ _ hd, deref_some _ _ _ hc,
    Attach_of_room chan this hroom, bind, Except.bind, pure, Except.pure, hu]

theorem NetDevice_SendFrom_of_ok (w : World) (now : Time) (thread : ThreadId)
    (this c : Nat) (d : EmTestNetDevice) (chan : EmTestChannel) (out : TxOutcome)
    (packet : Packet) (src dest : Address) (protocolNumber : Nat)
    (hd : w.devices[this]? = some d) (hch : d.m_channel = some c)
    (hc : w.channels[c]? = some chan)
    (htx : chan.TransmitStart w.statics
        { now := now, thread := thread, devices := w.devices }
        packet src dest protocolNumber d.m_deviceId = .ok out) :
    EmTestNetDevice.SendFrom w now thread this packet src dest protocolNumber =
      .ok ({ w with channels := w.channels.set c out.channel,
                    statics := out.statics,
                    events := w.events ++ out.scheduled,
                    diagnostics := w.diagnostics ++ out.diagnostics }, true) := by
  simp [EmTestNetDevice.SendFrom, deref_some _ _ _ hd, hch, deref_some _ _ _ hc, htx,
    bind, Except.bind, pure, Except.pure]

theorem NetDevice_Attach_facts (w : World) (this c : Nat) (d : EmTestNetDevice)
    (chan : EmTestChannel) (hd : w.devices[this]? = some d)
    (hc : w.channels[c]? = some chan) (hroom : chan.m_deviceList.length < 2) :
    ∃ w', EmTestNetDevice.Attach w this (some c) = .ok (w', true) ∧
      w'.devices[this]? =
        some { d with m_channel := some c, m_deviceId := chan.m_deviceList.length } ∧
      (∀ j : Nat, j ≠ this → w'.devices[j]? = w.devices[j]?) ∧
      w'.channels[c]? = some { m_deviceList := chan.m_deviceList ++
        [{ devicePtr := some this, active := true }] } ∧
      w'.events = w.events := by
  have hcl : c < w.channels.length := by
    by_contra hge
    rw [List.getElem?_eq_none (by omega)] at hc
    cases hc
  have htl : this < w.devices.length := by
    by_contra hge
    rw [List.getElem?_eq_none (by omega)] at hd
    cases hd
  refine ⟨_, NetDevice_Attach_of_room w this c d chan hd hc hroom, ?_, ?_, ?_, rfl⟩
  · simp only [List.getElem?_set_self htl]
  · intro j hj
    simp only [List.getElem?_set_ne (Ne.symm hj)]
  · simp only [List.getElem?_set_self hcl]

theorem NetDevice_Send_facts (w : World) (now : Time) (thread : ThreadId)
    (this c : Nat) (d : EmTestNetDevice) (chan : EmTestChannel)
    (r : EmTestDeviceRec) (peer : Nat) (dev : EmTestNetDevice) (node : Node)
    (packet : Packet) (dest : Address) (protocolNumber : Nat)
    (hd : w.devices[this]? = some d) (hch : d.m_channel = some c)
    (hc : w.channels[c]? = some chan)
    (hr : chan.m_deviceList[(d.m_deviceId ^^^ 1) % 4294967296]? = some r)
    (hp : r.devicePtr = some peer)
    (hdev : w.devices[peer]? = some dev) (hnode : dev.GetNode = some node) :
    ∃ w', EmTestNetDevice.Send w now thread this packet dest protocolNumber
        = .ok (w', true) ∧
      w'.events = w.events ++
        [{ context := node.GetId, delay := 0, target := some peer, packet := packet,
           src := Address.unspecified, dest := dest, protocolNumber := protocolNumber }] := by
  have htx := TransmitStart_of_peer chan w.statics
    { now := now, thread := thread, devices := w.devices }
    packet Address.unspecified dest protocolNumber d.m_deviceId r peer dev node
    hr hp hdev hnode
  exact ⟨_, NetDevice_SendFrom_of_ok w now thread this c d chan _ packet
    Address.unspecified dest protocolNumber hd hch hc htx, rfl⟩

/-! ## The claims -/

/-- C1: on a channel with fewer than two records, `Attach` of a non-null device
succeeds, returns the record count before the call (0 or 1), puts the record
(device, active) at that index as the one new record, and keeps every earlier
record as it was. -/
theorem C1_Attach_appends_active_record (ch : EmTestChannel) (e : Nat)
    (h : ch.GetNDevices < 2) :
    ∃ ch', ch.Attach (some e) = .ok (ch', (ch.GetNDevices : Int)) ∧
      (ch.GetNDevices = 0 ∨ ch.GetNDevices = 1) ∧
      ch'.m_deviceList.length = ch.m_deviceList.length + 1 ∧
      ch'.m_deviceList[ch.GetNDevices]? = some { devicePtr := some e, active := true } ∧
      ∀ j, j < ch.m_deviceList.length → ch'.m_deviceList[j]? = ch.m_deviceList[j]? := by
  have hl : ch.m_deviceList.length < 2 := h
  refine ⟨_, Attach_of_room ch e hl, ?_, ?_, ?_, ?_⟩
  · unfold EmTestChannel.GetNDevices; omega
  · simp
  · simp [EmTestChannel.GetNDevices]
  · intro j hj
    simp [List.getElem?_append_left hj]

/-- C1 at the channel holding device 0: attaching device 5 returns index 1. -/
theorem C1_Attach_appends_active_record_witness :
    chanA.GetNDevices < 2 ∧
    ∃ ch', chanA.Attach (some 5) = .ok (ch', (chanA.GetNDevices : Int)) ∧
      (chanA.GetNDevices = 0 ∨ chanA.GetNDevices = 1) ∧
      ch'.m_deviceList.length = chanA.m_deviceList.length + 1 ∧
      ch'.m_deviceList[chanA.GetNDevices]? = some { devicePtr := some 5, active := true } ∧
      ∀ j, j < chanA.m_deviceList.length → ch'.m_deviceList[j]? = chanA.m_deviceList[j]? :=
  ⟨by decide, C1_Attach_appends_active_record chanA 5 (by decide)⟩

/-- C2: from a fresh channel, n successive `Attach` calls with n at most 2 all
succeed and leave `GetNDevices` equal to n; when n is 2, one more `Attach` ends
with the capacity assertion instead of an index, so no channel with a third
record is produced. -/
theorem C2_Attach_count_and_capacity (es : List Nat) (h : es.length ≤ 2) :
    ∃ ch, attachAll EmTestChannel.ctor es = .ok ch ∧ ch.GetNDevices = es.length ∧
      (es.length = 2 → ∀ e, ch.Attach (some e) = .error .assertCapacity ∧
        (({ LinkState.fresh with channel := ch }).call (.Attach (some e))).channel.GetNDevices
          = 2) := by
  obtain ⟨ch, h1, h2⟩ := attachAll_room es EmTestChannel.ctor
    (by simpa [EmTestChannel.ctor] using h)
  have h3 : ch.m_deviceList.length = es.length := by
    simpa [EmTestChannel.ctor] using h2
  refine ⟨ch, h1, h3, ?_⟩
  intro h4 e
  have h5 : ch.Attach (some e) = .error .assertCapacity :=
    Attach_of_full ch e (by omega)
  refine ⟨h5, ?_⟩
  simp only [LinkState.call, h5, EmTestChannel.GetNDevices]
  omega

/-- C2 for the endpoints 3 then 4: two records, and a third `Attach` is refused. -/
theorem C2_Attach_count_and_capacity_witness :
    [3, 4].length ≤ 2 ∧
    ∃ ch, attachAll EmTestChannel.ctor [3, 4] = .ok ch ∧ ch.GetNDevices = [3, 4].length ∧
      ([3, 4].length = 2 → ∀ e, ch.Attach (some e) = .error .assertCapacity ∧
        (({ LinkState.fresh with channel := ch }).call (.Attach (some e))).channel.GetNDevices
          = 2) :=
  ⟨by decide, C2_Attach_count_and_capacity [3, 4] (by decide)⟩

/-- C3: after any finite sequence of `Attach`, `Detach` and `TransmitStart` calls
on a fresh link, failed ones included, the device list holds at most two records. -/
theorem C3_at_most_two_records (calls : List LinkCall) :
    (LinkState.fresh.run calls).channel.GetNDevices ≤ 2 :=
  run_length_le_two calls LinkState.fresh (by simp [LinkState.fresh, EmTestChannel.ctor])


/-- C4: on a channel with exactly two records and a source index 0 or 1, where the
record at index (srcId XOR 1) holds the device `peer` and that device sits on a
node, `TransmitStart` returns true and schedules exactly one event: `Receive` on
`peer`, delay zero, context the id of the node of `peer`, with packet, source,
destination and protocol number as passed in. -/
theorem C4_TransmitStart_delivers_to_peer (ch : EmTestChannel) (st : TxStatics)
    (env : TxEnv) (p : Packet) (src dest : Address) (protocolNumber srcId : Nat)
    (peer : Nat) (dev : EmTestNetDevice) (node : Node)
    (hlen : ch.GetNDevices = 2) (hsrc : srcId = 0 ∨ srcId = 1)
    (hpeer : ch.GetDevice (srcId ^^^ 1) = .ok (some peer))
    (hdev : env.devices[peer]? = some dev) (hnode : dev.GetNode = some node) :
    srcId ^^^ 1 < ch.GetNDevices ∧
    ∃ out, ch.TransmitStart st env p src dest protocolNumber srcId = .ok out ∧
      out.ret = true ∧
      out.scheduled = [{ context := node.GetId, delay := 0, target := some peer,
                         packet := p, src := src, dest := dest,
                         protocolNumber := protocolNumber }] := by
  obtain ⟨r, hr, hp⟩ := GetDevice_ok_inv _ _ _ hpeer
  have hmod : (srcId ^^^ 1) % 4294967296 = srcId ^^^ 1 := by
    rcases hsrc with h | h <;> subst h <;> rfl
  have hin : srcId ^^^ 1 < ch.GetNDevices := by
    rw [hlen]
    rcases hsrc with h | h <;> subst h <;> decide
  rw [← hmod] at hr
  exact ⟨hin, _, TransmitStart_of_peer ch st env p src dest protocolNumber srcId r peer dev
    node hr hp hdev hnode, rfl, rfl⟩

/-- C4 on the channel holding devices 0 and 1: device 0 sends, device 1 (node 8)
is the target. -/
theorem C4_TransmitStart_delivers_to_peer_witness :
    0 ^^^ 1 < chanAB.GetNDevices ∧
    ∃ out, chanAB.TransmitStart TxStatics.initial envAB 42 Address.unspecified
        (Address.mac48 3) 9 0 = .ok out ∧
      out.ret = true ∧
      out.scheduled = [{ context := 8, delay := 0, target := some 1,
                         packet := 42, src := Address.unspecified, dest := Address.mac48 3,
                         protocolNumber := 9 }] :=
  C4_TransmitStart_delivers_to_peer chanAB TxStatics.initial envAB 42 Address.unspecified
    (Address.mac48 3) 9 0 1 devB { m_id := 8 } rfl (Or.inl rfl) rfl rfl rfl

/-- C5: on the channel that holds one record, `TransmitStart` makes no check of the
record count. With source index 1 it returns true and schedules a `Receive` on
the only attached device; with source index 0 it indexes the list at 1, past
its end, with no guard in front of the lookup. -/
theorem C5_TransmitStart_short_list_unguarded :
    chanA.TransmitStart TxStatics.initial envAB 42 Address.unspecified (Address.mac48 3) 9 1
      = .ok { channel := chanA,
              statics := { last_thread_id := some 1, last_time := 5 },
              scheduled := [{ context := 7, delay := 0, target := some 0, packet := 42,
                              src := Address.unspecified, dest := Address.mac48 3,
                              protocolNumber := 9 }],
              diagnostics := [], ret := true } ∧
    chanA.TransmitStart TxStatics.initial envAB 42 Address.unspecified (Address.mac48 3) 9 0
      = .error Fault.outOfRange ∧
    EmTestChannel.ctor.TransmitStart TxStatics.initial envAB 42 Address.unspecified
      (Address.mac48 3) 9 0 = .error Fault.outOfRange :=
  ⟨rfl, rfl, rfl⟩


/-- C6: `Detach` of a non-null device returns true exactly when some record holds
that device with its flag set; and when it returns true, the first such record in
list order is the one whose flag is cleared, every other record staying as it was. -/
theorem C6_Detach_first_active_match (ch : EmTestChannel) (e : Nat) :
    ∃ ch' b, ch.Detach (some e) = .ok (ch', b) ∧
      (b = true ↔ ∃ r ∈ ch.m_deviceList, r.devicePtr = some e ∧ r.active = true) ∧
      (b = true → ∃ i r, ch.m_deviceList[i]? = some r ∧
          r.devicePtr = some e ∧ r.active = true ∧
          (∀ j r', j < i → ch.m_deviceList[j]? = some r' →
              ¬ (r'.devicePtr = some e ∧ r'.active = true)) ∧
          ch'.m_deviceList = ch.m_deviceList.set i { r with active := false }) := by
  refine ⟨_, _, Detach_some ch e, detachLoop_snd_iff _ _, ?_⟩
  intro hb
  obtain ⟨i, r, hget, hd, ha, hfirst, hloop⟩ :=
    detachLoop_found (some e) ch.m_deviceList ((detachLoop_snd_iff _ _).mp hb)
  exact ⟨i, r, hget, hd, ha, hfirst, by rw [hloop]⟩

/-- C7: when no record holds the device with its flag set (the device is absent
or only in inactive records), `Detach` returns false with no fault and the
channel is what it was; and when the device is in exactly one record, a second
`Detach` after a first one returns false and leaves the channel of the first. -/
theorem C7_Detach_idempotent (ch : EmTestChannel) (e : Nat) :
    ((∀ r ∈ ch.m_deviceList, r.devicePtr = some e → r.active = false) →
        ch.Detach (some e) = .ok (ch, false)) ∧
    (ch.m_deviceList.countP (fun r => decide (r.devicePtr = some e)) = 1 →
        ∃ ch1 b, ch.Detach (some e) = .ok (ch1, b) ∧
          ch1.Detach (some e) = .ok (ch1, false)) := by
  have part1 : ∀ c : EmTestChannel,
      (∀ r ∈ c.m_deviceList, r.devicePtr = some e → r.active = false) →
        c.Detach (some e) = .ok (c, false) := by
    intro c h
    rw [Detach_some, detachLoop_not_found (some e) c.m_deviceList]
    intro r hr hP
    have := h r hr hP.1
    rw [hP.2] at this
    cases this
  refine ⟨part1 ch, ?_⟩
  intro hcount
  refine ⟨_, _, Detach_some ch e, ?_⟩
  exact part1 _ (detachLoop_once (some e) ch.m_deviceList (by omega))

/-- C7 evaluated: device 5 is not on the channel of devices 0 and 1, and device 1
is on it once. -/
theorem C7_Detach_idempotent_witness :
    chanAB.Detach (some 5) = .ok (chanAB, false) ∧
    ∃ ch1 b, chanAB.Detach (some 1) = .ok (ch1, b) ∧
      ch1.Detach (some 1) = .ok (ch1, false) :=
  ⟨(C7_Detach_idempotent chanAB 5).1 (by decide),
   (C7_Detach_idempotent chanAB 1).2 (by decide)⟩

/-- C8: `Detach` of a non-null device, whatever it returns, keeps `GetNDevices`,
keeps the device returned by `GetDevice` at every index, and leaves every record
but at most one exactly as it was. -/
theorem C8_Detach_keeps_count_and_devices (ch : EmTestChannel) (e : Nat) :
    ∃ ch' b, ch.Detach (some e) = .ok (ch', b) ∧
      ch'.GetNDevices = ch.GetNDevices ∧
      (∀ i, ch'.GetDevice i = ch.GetDevice i) ∧
      (∃ k : Nat, ∀ j : Nat, j ≠ k → ch'.m_deviceList[j]? = ch.m_deviceList[j]?) := by
  refine ⟨_, _, Detach_some ch e, detachLoop_length _ _, ?_, ?_⟩
  · intro i
    rw [GetDevice_eq_map, GetDevice_eq_map]
    simp only [detachLoop_map_devicePtr]
  · by_cases hex : ∃ r ∈ ch.m_deviceList, r.devicePtr = some e ∧ r.active = true
    · obtain ⟨i, r, _, _, _, _, hloop⟩ := detachLoop_found (some e) ch.m_deviceList hex
      refine ⟨i, fun j hj => ?_⟩
      simp only [hloop]
      exact List.getElem?_set_ne (Ne.symm hj)
    · refine ⟨0, fun j _ => ?_⟩
      rw [detachLoop_not_found (some e) ch.m_deviceList (fun r hr hP => hex ⟨r, hr, hP⟩)]


/-- C9: if `Attach` of a device returned index i on a link, then after any finite
sequence of further `Attach`, `Detach` and `TransmitStart` calls on that link
`GetDevice(i)` returns that same device. -/
theorem C9_assigned_index_is_stable (s : LinkState) (e : Ptr) (ch' : EmTestChannel)
    (i : Int) (h : s.channel.Attach e = .ok (ch', i)) (calls : List LinkCall) :
    (({ s with channel := ch' }).run calls).channel.GetDevice i.toNat = .ok e := by
  obtain ⟨_, hlist, hi⟩ := Attach_ok_inv _ _ _ _ h
  have hk : i.toNat = s.channel.m_deviceList.length := by rw [hi]; simp
  have h0 : ((({ s with channel := ch' } : LinkState).channel.m_deviceList.map
      EmTestDeviceRec.devicePtr))[i.toNat]? = some e := by
    simp [hlist, hk]
  have h1 := run_keeps_devicePtr calls { s with channel := ch' } i.toNat e h0
  rw [GetDevice_eq_map, h1]

/-- C9 on a fresh link: device 0 gets index 0; device 1 is attached, device 0 is
detached, a third attach is refused and a frame is sent, and index 0 still
denotes device 0. -/
theorem C9_assigned_index_is_stable_witness :
    (({ LinkState.fresh with channel := chanA }).run
        [LinkCall.Attach (some 1), LinkCall.Detach (some 0), LinkCall.Attach (some 2),
         LinkCall.TransmitStart envAB 42 Address.unspecified (Address.mac48 3) 9 1]
      ).channel.GetDevice (0 : Int).toNat = .ok (some 0) :=
  C9_assigned_index_is_stable LinkState.fresh (some 0) chanA 0 rfl _


/-- C10: with a fresh channel L and two distinct devices A and B, each on a node,
after A.Attach(L) and then B.Attach(L), A.Send(frame, addrB, proto) schedules
exactly one event, B.Receive(frame, unspecified source, addrB, proto) with delay
zero, and B.Send(frame, addrA, proto) schedules exactly one event,
A.Receive(frame, unspecified source, addrA, proto) with delay zero; the one
scheduled event is never a delivery to the sender. -/
theorem C10_send_reaches_the_peer_only (w : World) (a b l : Nat)
    (da db : EmTestNetDevice) (na nb : Node) (now : Time) (thread : ThreadId)
    (frame : Packet) (addrA addrB : Address) (proto : Nat)
    (hab : a ≠ b) (ha : w.devices[a]? = some da) (hb : w.devices[b]? = some db)
    (hna : da.GetNode = some na) (hnb : db.GetNode = some nb)
    (hl : w.channels[l]? = some EmTestChannel.ctor) :
    ∃ w1 w2, EmTestNetDevice.Attach w a (some l) = .ok (w1, true) ∧
      EmTestNetDevice.Attach w1 b (some l) = .ok (w2, true) ∧
      (∃ w3, EmTestNetDevice.Send w2 now thread a frame addrB proto = .ok (w3, true) ∧
        w3.events = w2.events ++
          [{ context := nb.GetId, delay := 0, target := some b, packet := frame,
             src := Address.unspecified, dest := addrB, protocolNumber := proto }] ∧
        ∀ ev ∈ w3.events.drop w2.events.length, ev.target ≠ some a) ∧
      (∃ w3, EmTestNetDevice.Send w2 now thread b frame addrA proto = .ok (w3, true) ∧
        w3.events = w2.events ++
          [{ context := na.GetId, delay := 0, target := some a, packet := frame,
             src := Address.unspecified, dest := addrA, protocolNumber := proto }] ∧
        ∀ ev ∈ w3.events.drop w2.events.length, ev.target ≠ some b) := by
  obtain ⟨w1, hw1, _, hother1, hc1, he1⟩ :=
    NetDevice_Attach_facts w a l da EmTestChannel.ctor ha hl (by simp [EmTestChannel.ctor])
  have hb1 : w1.devices[b]? = some db := by rw [hother1 b (Ne.symm hab)]; exact hb
  have ha1 : w1.devices[a]? =
      some { da with m_channel := some l, m_deviceId := 0 } := by
    simpa [EmTestChannel.ctor] using ‹w1.devices[a]? = _›
  obtain ⟨w2, hw2, hb2, hother2, hc2, he2⟩ :=
    NetDevice_Attach_facts w1 b l db _ hb1 hc1 (by simp [EmTestChannel.ctor])
  have ha2 : w2.devices[a]? =
      some { da with m_channel := some l, m_deviceId := 0 } := by
    rw [hother2 a hab]; exact ha1
  simp only [EmTestChannel.ctor, List.nil_append, List.length_singleton,
    List.singleton_append] at hc2 hb2
  refine ⟨w1, w2, hw1, hw2, ?_, ?_⟩
  · obtain ⟨w3, hw3, hev⟩ := NetDevice_Send_facts w2 now thread a l
      { da with m_channel := some l, m_deviceId := 0 } _
      { devicePtr := some b, active := true } b _ nb frame addrB proto
      ha2 rfl hc2 (by simp) rfl hb2 hnb
    refine ⟨w3, hw3, hev, ?_⟩
    intro ev hmem
    rw [hev] at hmem
    simp at hmem
    subst hmem
    simp only [ne_eq, Option.some.injEq]
    exact Ne.symm hab
  · obtain ⟨w3, hw3, hev⟩ := NetDevice_Send_facts w2 now thread b l
      { db with m_channel := some l, m_deviceId := 1 } _
      { devicePtr := some a, active := true } a _ na frame addrA proto
      hb2 rfl hc2 (by simp) rfl ha2 hna
    refine ⟨w3, hw3, hev, ?_⟩
    intro ev hmem
    rw [hev] at hmem
    simp at hmem
    subst hmem
    simp only [ne_eq, Option.some.injEq]
    exact hab

/-- C10 in the world of devices 0 (node 7) and 1 (node 8) and one fresh channel. -/
theorem C10_send_reaches_the_peer_only_witness :
    ∃ w1 w2, EmTestNetDevice.Attach worldAB 0 (some 0) = .ok (w1, true) ∧
      EmTestNetDevice.Attach w1 1 (some 0) = .ok (w2, true) ∧
      (∃ w3, EmTestNetDevice.Send w2 5 1 0 42 (Address.mac48 2) 9 = .ok (w3, true) ∧
        w3.events = w2.events ++
          [{ context := 8, delay := 0, target := some 1, packet := 42,
             src := Address.unspecified, dest := Address.mac48 2, protocolNumber := 9 }] ∧
        ∀ ev ∈ w3.events.drop w2.events.length, ev.target ≠ some 0) ∧
      (∃ w3, EmTestNetDevice.Send w2 5 1 1 42 (Address.mac48 1) 9 = .ok (w3, true) ∧
        w3.events = w2.events ++
          [{ context := 7, delay := 0, target := some 0, packet := 42,
             src := Address.unspecified, dest := Address.mac48 1, protocolNumber := 9 }] ∧
        ∀ ev ∈ w3.events.drop w2.events.length, ev.target ≠ some 1) :=
  C10_send_reaches_the_peer_only worldAB 0 1 0 devA devB { m_id := 7 } { m_id := 8 } 5 1 42
    (Address.mac48 1) (Address.mac48 2) 9 (by decide) rfl rfl rfl rfl rfl


/-! ## Lemmas on Receive and on repeated Attach -/

theorem Receive_calls_cases (w : World) (this : Nat) (packet : Packet) (src dest : Address)
    (protocolNumber : Nat) (r : World × List SinkCall)
    (h : EmTestNetDevice.Receive w this packet src dest protocolNumber = .ok r) :
    r.1 = w ∧ (r.2 = [] ∨ ∃ cb, r.2 = [SinkCall.promiscRx cb (some this) packet
      protocolNumber src dest PacketType.PACKET_HOST]) := by
  unfold EmTestNetDevice.Receive at h
  cases hd : deref w.devices (some this) with
  | error f => simp [hd, bind, Except.bind] at h
  | ok self =>
    cases hp : self.m_promiscRxCallback with
    | none =>
      simp [hd, hp, bind, Except.bind, pure, Except.pure] at h
      subst h
      exact ⟨rfl, Or.inl rfl⟩
    | some cb =>
      simp [hd, hp, bind, Except.bind, pure, Except.pure] at h
      subst h
      exact ⟨rfl, Or.inr ⟨cb, rfl⟩⟩

theorem NetDevice_Attach_channels_frame (w : World) (this c : Nat) (d : EmTestNetDevice)
    (chan : EmTestChannel) (hd : w.devices[this]? = some d)
    (hc : w.channels[c]? = some chan) (hroom : chan.m_deviceList.length < 2) :
    ∃ w', EmTestNetDevice.Attach w this (some c) = .ok (w', true) ∧
      (∀ j : Nat, j ≠ c → w'.channels[j]? = w.channels[j]?) ∧
      w'.statics = w.statics ∧ w'.diagnostics = w.diagnostics := by
  refine ⟨_, NetDevice_Attach_of_room w this c d chan hd hc hroom, ?_, rfl, rfl⟩
  intro j hj
  simp only [List.getElem?_set_ne (Ne.symm hj)]

/-! ## The claims, continued -/

/-- C11: with X and Y attached to one channel and a receive callback registered
on Y, X.Send(F, addrY, 9) schedules one `Receive` on Y, and executing it invokes
no callback at all: `Receive` never calls `m_rxCallback`. The same with X and Y
swapped. Evaluated in the world of devices 0 and 1. -/
theorem C11_receive_sink_is_never_invoked :
    sendAndDeliver worldAB 0 1 77 42 (Address.mac48 2) 9 =
      .ok ([{ context := 8, delay := 0, target := some 1, packet := 42,
              src := Address.unspecified, dest := Address.mac48 2, protocolNumber := 9 }],
           []) ∧
    sendAndDeliver worldAB 1 0 77 42 (Address.mac48 1) 9 =
      .ok ([{ context := 7, delay := 0, target := some 0, packet := 42,
              src := Address.unspecified, dest := Address.mac48 1, protocolNumber := 9 }],
           []) :=
  ⟨rfl, rfl⟩

/-- C12: on a device holding both callbacks, `Receive` invokes the promiscuous one
and nothing after it; on a device holding the receive callback only it invokes
nothing; and no returning call of `Receive` ever invokes a receive callback. -/
theorem C12_Receive_skips_the_receive_sink :
    EmTestNetDevice.Receive worldSinks 0 42 Address.unspecified (Address.mac48 1) 9 =
      .ok (worldSinks, [SinkCall.promiscRx 88 (some 0) 42 9 Address.unspecified
                          (Address.mac48 1) PacketType.PACKET_HOST]) ∧
    EmTestNetDevice.Receive worldSinks 1 42 Address.unspecified (Address.mac48 1) 9 =
      .ok (worldSinks, []) ∧
    ∀ (w : World) (this : Nat) (packet : Packet) (src dest : Address) (proto cb : Nat)
      (r : World × List SinkCall),
      EmTestNetDevice.Receive w this packet src dest proto = .ok r →
        ∀ c ∈ r.2, SinkCall.isRxOf cb c = false := by
  refine ⟨rfl, rfl, ?_⟩
  intro w this packet src dest proto cb r h c hc
  rcases (Receive_calls_cases w this packet src dest proto r h).2 with h0 | ⟨cb', h1⟩
  · rw [h0] at hc; cases hc
  · rw [h1] at hc
    simp at hc
    subst hc
    rfl

/-- C13, as stated, fails: device 0, already attached to channel 0 with index 0,
calls `Attach` on channel 0 again; the call returns true, the stored index
becomes 1 and the channel holds two records of device 0. -/
theorem C13_second_Attach_is_not_refused :
    ∃ w1 w2, EmTestNetDevice.Attach worldAB 0 (some 0) = .ok (w1, true) ∧
      w1.devices[0]? = some { devA with m_channel := some 0, m_deviceId := 0 } ∧
      w1.channels[0]? = some chanA ∧
      EmTestNetDevice.Attach w1 0 (some 0) = .ok (w2, true) ∧
      w2.devices[0]? = some { devA with m_channel := some 0, m_deviceId := 1 } ∧
      w2.channels[0]? = some { m_deviceList := [{ devicePtr := some 0, active := true },
                                                 { devicePtr := some 0, active := true }] } :=
  ⟨_, _, rfl, rfl, rfl, rfl, rfl, rfl⟩

/-- C13, amended: for a device already attached (its stored channel `c0` holds it
at its stored index), a second `Attach` on a channel `c` with fewer than two
records returns true, stores `c` and the record count of `c` before the call as
the device's channel and index, appends one active record of the device to `c`,
leaves every other channel as it was, and the first channel still holds the
device at the earlier index. -/
theorem C13_second_Attach_overwrites (w : World) (this c0 c : Nat) (d : EmTestNetDevice)
    (chan0 chan : EmTestChannel)
    (hd : w.devices[this]? = some d) (hch0 : d.m_channel = some c0)
    (hc0 : w.channels[c0]? = some chan0)
    (hidx : chan0.GetDevice d.m_deviceId = .ok (some this))
    (hc : w.channels[c]? = some chan) (hroom : chan.GetNDevices < 2) :
    ∃ w', EmTestNetDevice.Attach w this (some c) = .ok (w', true) ∧
      w'.devices[this]? =
        some { d with m_channel := some c, m_deviceId := chan.GetNDevices } ∧
      w'.channels[c]? = some { m_deviceList := chan.m_deviceList ++
        [{ devicePtr := some this, active := true }] } ∧
      (∀ j : Nat, j ≠ c → w'.channels[j]? = w.channels[j]?) ∧
      ∃ chan0', deref w'.channels d.m_channel = .ok chan0' ∧
        chan0'.GetDevice d.m_deviceId = .ok (some this) := by
  rw [hch0]
  obtain ⟨w', hw', hdev, _, hchan, _⟩ := NetDevice_Attach_facts w this c d chan hd hc hroom
  obtain ⟨w'', hw'', hframe, _, _⟩ :=
    NetDevice_Attach_channels_frame w this c d chan hd hc hroom
  have hsame : w'' = w' := by
    rw [hw'] at hw''
    injection hw'' with h1
    injection h1 with h2 _
    exact h2.symm
  subst hsame
  refine ⟨w'', hw', hdev, hchan, hframe, ?_⟩
  by_cases hcc : c0 = c
  · subst hcc
    rw [hc0] at hc
    injection hc with hc
    subst hc
    refine ⟨_, deref_some _ _ _ hchan, ?_⟩
    obtain ⟨r, hr, hp⟩ := GetDevice_ok_inv _ _ _ hidx
    have hlt : d.m_deviceId < chan0.m_deviceList.length := by
      by_contra hge
      rw [List.getElem?_eq_none (by omega)] at hr
      cases hr
    have hr' : (chan0.m_deviceList ++
        [({ devicePtr := some this, active := true } : EmTestDeviceRec)])[d.m_deviceId]?
        = some r := by
      rw [List.getElem?_append_left hlt]; exact hr
    rw [GetDevice_of_getElem _ _ r hr', hp]
  · exact ⟨chan0, deref_some _ _ _ (by rw [hframe c0 hcc]; exact hc0), hidx⟩

/-- C13 amended, in the world where device 0 is attached to channel 0 with index 0
and that channel holds one record. -/
theorem C13_second_Attach_overwrites_witness :
    ∃ w', EmTestNetDevice.Attach
        { worldAB with devices := [{ devA with m_channel := some 0, m_deviceId := 0 }, devB],
                       channels := [chanA] } 0 (some 0) = .ok (w', true) ∧
      w'.devices[0]? =
        some { devA with m_channel := some 0, m_deviceId := chanA.GetNDevices } ∧
      w'.channels[0]? = some { m_deviceList := chanA.m_deviceList ++
        [{ devicePtr := some 0, active := true }] } ∧
      (∀ j : Nat, j ≠ 0 → w'.channels[j]? =
        ({ worldAB with
            devices := [{ devA with m_channel := some 0, m_deviceId := 0 }, devB],
            channels := [chanA] } : World).channels[j]?) ∧
      ∃ chan0', deref w'.channels (some 0) = .ok chan0' ∧
        chan0'.GetDevice 0 = .ok (some 0) :=
  C13_second_Attach_overwrites
    { worldAB with devices := [{ devA with m_channel := some 0, m_deviceId := 0 }, devB],
                   channels := [chanA] }
    0 0 0 { devA with m_channel := some 0, m_deviceId := 0 } chanA chanA
    rfl rfl rfl rfl rfl (by decide)

/-- C14: `Send(frame, dest, proto)` is `SendFrom(frame, Address(), dest, proto)`:
same return value, same resulting state, same fault if any. -/
theorem C14_Send_is_SendFrom_unspecified (w : World) (now : Time) (thread : ThreadId)
    (this : Nat) (frame : Packet) (dest : Address) (proto : Nat) :
    EmTestNetDevice.Send w now thread this frame dest proto =
      EmTestNetDevice.SendFrom w now thread this frame Address.unspecified dest proto :=
  rfl

/-- C15: for a device attached to channel `c` with index `i`, `SendFrom(frame, src,
dest, proto)` is the one call `TransmitStart(frame, src, dest, proto, i)` on
channel `c`: it has that call's effects and returns the boolean that call
returned (and ends as that call ends when it does not return). -/
theorem C15_SendFrom_forwards_to_TransmitStart (w : World) (now : Time)
    (thread : ThreadId) (this c i : Nat) (d : EmTestNetDevice) (chan : EmTestChannel)
    (frame : Packet) (src dest : Address) (proto : Nat)
    (hd : w.devices[this]? = some d) (hch : d.m_channel = some c)
    (hid : d.m_deviceId = i) (hc : w.channels[c]? = some chan) :
    EmTestNetDevice.SendFrom w now thread this frame src dest proto =
      (chan.TransmitStart w.statics { now := now, thread := thread, devices := w.devices }
          frame src dest proto i).map
        (fun out =>
          ({ w with channels := w.channels.set c out.channel,
                    statics := out.statics,
                    events := w.events ++ out.scheduled,
                    diagnostics := w.diagnostics ++ out.diagnostics }, out.ret)) := by
  subst hid
  cases htx : chan.TransmitStart w.statics
      { now := now, thread := thread, devices := w.devices } frame src dest proto
      d.m_deviceId with
  | error f =>
    simp [EmTestNetDevice.SendFrom, deref_some _ _ _ hd, hch, deref_some _ _ _ hc, htx,
      bind, Except.bind, Except.map]
  | ok out =>
    have hret : out.ret = true := (TransmitStart_ok_inv _ _ _ _ _ _ _ _ _ htx).2.1
    rw [NetDevice_SendFrom_of_ok w now thread this c d chan out frame src dest proto
      hd hch hc htx]
    simp [Except.map, hret]

/-- C15 in the world where devices 0 and 1 are attached to channel 0: device 1
sends. -/
theorem C15_SendFrom_forwards_to_TransmitStart_witness :
    EmTestNetDevice.SendFrom worldAttached 5 1 1 42 (Address.mac48 1) (Address.mac48 2) 9 =
      (chanAB.TransmitStart worldAttached.statics
          { now := 5, thread := 1, devices := worldAttached.devices }
          42 (Address.mac48 1) (Address.mac48 2) 9 1).map
        (fun out =>
          ({ worldAttached with
                channels := worldAttached.channels.set 0 out.channel,
                statics := out.statics,
                events := worldAttached.events ++ out.scheduled,
                diagnostics := worldAttached.diagnostics ++ out.diagnostics }, out.ret)) :=
  C15_SendFrom_forwards_to_TransmitStart worldAttached 5 1 1 0 1
    { devB with m_channel := some 0, m_deviceId := 1 } chanAB 42 (Address.mac48 1)
    (Address.mac48 2) 9 rfl rfl rfl rfl


/-! ## Lemmas on the active flag and on the statics -/

theorem TransmitStart_flags_irrelevant (ch1 ch2 : EmTestChannel) (st : TxStatics)
    (env : TxEnv) (p : Packet) (src dest : Address) (protocolNumber srcId : Nat)
    (h : ch1.m_deviceList.map EmTestDeviceRec.devicePtr =
      ch2.m_deviceList.map EmTestDeviceRec.devicePtr) :
    (ch1.TransmitStart st env p src dest protocolNumber srcId).map
        (fun o => (o.ret, o.scheduled, o.statics, o.diagnostics)) =
      (ch2.TransmitStart st env p src dest protocolNumber srcId).map
        (fun o => (o.ret, o.scheduled, o.statics, o.diagnostics)) := by
  have hi : (ch1.m_deviceList[(srcId ^^^ 1) % 4294967296]?).map EmTestDeviceRec.devicePtr =
      (ch2.m_deviceList[(srcId ^^^ 1) % 4294967296]?).map EmTestDeviceRec.devicePtr := by
    rw [← List.getElem?_map, ← List.getElem?_map, h]
  unfold EmTestChannel.TransmitStart EmTestChannel.at
  cases h1 : ch1.m_deviceList[(srcId ^^^ 1) % 4294967296]? with
  | none =>
    cases h2 : ch2.m_deviceList[(srcId ^^^ 1) % 4294967296]? with
    | none => simp [bind, Except.bind, Except.map]
    | some r2 => rw [h1, h2] at hi; cases hi
  | some r1 =>
    cases h2 : ch2.m_deviceList[(srcId ^^^ 1) % 4294967296]? with
    | none => rw [h1, h2] at hi; cases hi
    | some r2 =>
      rw [h1, h2] at hi
      have hp : r1.devicePtr = r2.devicePtr := by simpa using hi
      cases hd : deref env.devices r2.devicePtr with
      | error f =>
        simp [bind, Except.bind, Except.map, EmTestDeviceRec.copy, hp, hd]
      | ok dev =>
        cases hn : dev.m_node with
        | none =>
          simp [bind, Except.bind, Except.map, EmTestDeviceRec.copy, hp, hd,
            EmTestNetDevice.GetNode, hn]
        | some node =>
          simp [bind, Except.bind, Except.map, EmTestDeviceRec.copy, hp, hd,
            EmTestNetDevice.GetNode, hn, pure, Except.pure]

theorem TransmitStart_statics_irrelevant (ch : EmTestChannel) (st1 st2 : TxStatics)
    (now1 now2 : Time) (thread1 thread2 : ThreadId) (devices : List EmTestNetDevice)
    (p : Packet) (src dest : Address) (protocolNumber srcId : Nat) :
    (ch.TransmitStart st1 { now := now1, thread := thread1, devices := devices }
        p src dest protocolNumber srcId).map (fun o => (o.ret, o.scheduled, o.channel)) =
      (ch.TransmitStart st2 { now := now2, thread := thread2, devices := devices }
        p src dest protocolNumber srcId).map (fun o => (o.ret, o.scheduled, o.channel)) := by
  unfold EmTestChannel.TransmitStart EmTestChannel.at
  cases h1 : ch.m_deviceList[(srcId ^^^ 1) % 4294967296]? with
  | none => simp [bind, Except.bind, Except.map]
  | some r =>
    cases hd : deref devices r.devicePtr with
    | error f => simp [bind, Except.bind, Except.map, EmTestDeviceRec.copy, hd]
    | ok dev =>
      cases hn : dev.m_node with
      | none =>
        simp [bind, Except.bind, Except.map, EmTestDeviceRec.copy, hd,
          EmTestNetDevice.GetNode, hn]
      | some node =>
        simp [bind, Except.bind, Except.map, EmTestDeviceRec.copy, hd,
          EmTestNetDevice.GetNode, hn, pure, Except.pure]

theorem detachLoop_keeps_inactive (device : Ptr) (l : List EmTestDeviceRec) (k : Nat)
    (r : EmTestDeviceRec) (hk : l[k]? = some r) (hr : r.active = false) :
    ∃ r', (detachLoop device l).1[k]? = some r' ∧ r'.active = false ∧
      r'.devicePtr = r.devicePtr := by
  induction l generalizing k with
  | nil => simp at hk
  | cons it rest ih =>
    unfold detachLoop
    by_cases hit : it.devicePtr = device ∧ it.active = true
    · rw [if_pos hit]
      cases k with
      | zero =>
        simp at hk
        subst hk
        rw [hr] at hit
        exact absurd hit.2 (by decide)
      | succ k => exact ⟨r, by simpa using hk, hr, rfl⟩
    · rw [if_neg hit]
      cases k with
      | zero =>
        simp at hk
        subst hk
        exact ⟨it, by simp, hr, rfl⟩
      | succ k =>
        obtain ⟨r', h1, h2, h3⟩ := ih k (by simpa using hk)
        exact ⟨r', by simpa using h1, h2, h3⟩

theorem call_keeps_inactive (s : LinkState) (c : LinkCall) (k : Nat) (r : EmTestDeviceRec)
    (hk : s.channel.m_deviceList[k]? = some r) (hr : r.active = false) :
    ∃ r', (s.call c).channel.m_deviceList[k]? = some r' ∧ r'.active = false ∧
      r'.devicePtr = r.devicePtr := by
  rcases call_channel_cases s c with h1 | ⟨device, i, h1⟩ | ⟨device, b, h1⟩
  · rw [h1]; exact ⟨r, hk, hr, rfl⟩
  · obtain ⟨_, hlist, _⟩ := Attach_ok_inv _ _ _ _ h1
    have hlt : k < s.channel.m_deviceList.length := by
      by_contra hge
      rw [List.getElem?_eq_none (by omega)] at hk
      cases hk
    rw [hlist, List.getElem?_append_left hlt]
    exact ⟨r, hk, hr, rfl⟩
  · obtain ⟨hlist, _⟩ := Detach_ok_inv _ _ _ _ h1
    rw [hlist]
    exact detachLoop_keeps_inactive device _ k r hk hr

theorem run_keeps_inactive (calls : List LinkCall) (s : LinkState) (k : Nat)
    (r : EmTestDeviceRec) (hk : s.channel.m_deviceList[k]? = some r)
    (hr : r.active = false) :
    ∃ r', (s.run calls).channel.m_deviceList[k]? = some r' ∧ r'.active = false ∧
      r'.devicePtr = r.devicePtr := by
  induction calls generalizing s r with
  | nil => exact ⟨r, hk, hr, rfl⟩
  | cons c cs ih =>
    obtain ⟨r1, h1, h2, h3⟩ := call_keeps_inactive s c k r hk hr
    obtain ⟨r2, h4, h5, h6⟩ := ih (s.call c) r1 h1 h2
    exact ⟨r2, h4, h5, by rw [h6, h3]⟩


/-- C16: with A and B attached to channel `l` (A is the record at B's peer index)
and `Detach(A)` returning true, `B.Send(frame, dest, proto)` returns true and
schedules the one delivery to `A.Receive` both on the channel before the
`Detach` and on the channel after it, the same event in both; and in general two
channels that differ only in active flags give `TransmitStart` the same return
value, scheduled events, statics and diagnostics. -/
theorem C16_Send_ignores_the_active_flag (w : World) (a b l : Nat)
    (da db : EmTestNetDevice) (na : Node) (chan chan' : EmTestChannel)
    (now : Time) (thread : ThreadId) (frame : Packet) (dest : Address) (proto : Nat)
    (ha : w.devices[a]? = some da) (hna : da.GetNode = some na)
    (hb : w.devices[b]? = some db) (hbch : db.m_channel = some l)
    (hc : w.channels[l]? = some chan)
    (hpeer : chan.GetDevice ((db.m_deviceId ^^^ 1) % 4294967296) = .ok (some a))
    (hdet : chan.Detach (some a) = .ok (chan', true)) :
    (∃ w3 w3',
      EmTestNetDevice.Send w now thread b frame dest proto = .ok (w3, true) ∧
      EmTestNetDevice.Send { w with channels := w.channels.set l chan' } now thread b
        frame dest proto = .ok (w3', true) ∧
      w3.events = w.events ++
        [{ context := na.GetId, delay := 0, target := some a, packet := frame,
           src := Address.unspecified, dest := dest, protocolNumber := proto }] ∧
      w3'.events = w3.events) ∧
    ∀ (ch1 ch2 : EmTestChannel) (st : TxStatics) (env : TxEnv) (p : Packet)
      (src dst : Address) (protocolNumber srcId : Nat),
      ch1.m_deviceList.map EmTestDeviceRec.devicePtr =
        ch2.m_deviceList.map EmTestDeviceRec.devicePtr →
      (ch1.TransmitStart st env p src dst protocolNumber srcId).map
          (fun o => (o.ret, o.scheduled, o.statics, o.diagnostics)) =
        (ch2.TransmitStart st env p src dst protocolNumber srcId).map
          (fun o => (o.ret, o.scheduled, o.statics, o.diagnostics)) := by
  refine ⟨?_, fun ch1 ch2 st env p src dst protocolNumber srcId h =>
    TransmitStart_flags_irrelevant ch1 ch2 st env p src dst protocolNumber srcId h⟩
  have hll : l < w.channels.length := by
    by_contra hge
    rw [List.getElem?_eq_none (by omega)] at hc
    cases hc
  obtain ⟨r, hr, hp⟩ := GetDevice_ok_inv _ _ _ hpeer
  obtain ⟨hlist, _⟩ := Detach_ok_inv _ _ _ _ hdet
  have hmap : chan'.m_deviceList.map EmTestDeviceRec.devicePtr =
      chan.m_deviceList.map EmTestDeviceRec.devicePtr := by
    rw [hlist, detachLoop_map_devicePtr]
  have hpeer' : chan'.GetDevice ((db.m_deviceId ^^^ 1) % 4294967296) = .ok (some a) := by
    rw [GetDevice_eq_map, hmap, ← GetDevice_eq_map]; exact hpeer
  obtain ⟨r', hr', hp'⟩ := GetDevice_ok_inv _ _ _ hpeer'
  obtain ⟨w3, hw3, hev⟩ := NetDevice_Send_facts w now thread b l db chan r a da na
    frame dest proto hb hbch hc hr hp ha hna
  obtain ⟨w3', hw3', hev'⟩ := NetDevice_Send_facts
    { w with channels := w.channels.set l chan' } now thread b l db chan' r' a da na
    frame dest proto hb hbch (by simp only [List.getElem?_set_self hll]) hr' hp' ha hna
  exact ⟨w3, w3', hw3, hw3', hev, by rw [hev', hev]⟩

/-- C16 in the world where devices 0 and 1 are attached to channel 0: device 0 is
detached and device 1 sends. -/
theorem C16_Send_ignores_the_active_flag_witness :
    ∃ w3 w3',
      EmTestNetDevice.Send worldAttached 5 1 1 42 (Address.mac48 1) 9 = .ok (w3, true) ∧
      EmTestNetDevice.Send
        { worldAttached with channels := worldAttached.channels.set 0 chanABdetached0 }
        5 1 1 42 (Address.mac48 1) 9 = .ok (w3', true) ∧
      w3.events = worldAttached.events ++
        [{ context := 7, delay := 0, target := some 0, packet := 42,
           src := Address.unspecified, dest := Address.mac48 1, protocolNumber := 9 }] ∧
      w3'.events = w3.events :=
  (C16_Send_ignores_the_active_flag worldAttached 0 1 0
    { devA with m_channel := some 0, m_deviceId := 0 }
    { devB with m_channel := some 0, m_deviceId := 1 } { m_id := 7 } chanAB
    chanABdetached0
    5 1 42 (Address.mac48 1) 9 rfl rfl rfl rfl rfl rfl rfl).1

/-- C17: on the channel of devices 0 and 1 after `Detach` of device 1 returned
true, `TransmitStart` with the source index 1 of the detached device returns
true, and `TransmitStart` with source index 0 schedules a `Receive` on the
detached device 1. -/
theorem C17_TransmitStart_serves_detached_devices :
    chanAB.Detach (some 1) = .ok (chanABdetached, true) ∧
    chanABdetached.m_deviceList[1]? = some { devicePtr := some 1, active := false } ∧
    chanABdetached.TransmitStart TxStatics.initial envAB 42 Address.unspecified
        (Address.mac48 3) 9 1
      = .ok { channel := chanABdetached,
              statics := { last_thread_id := some 1, last_time := 5 },
              scheduled := [{ context := 7, delay := 0, target := some 0, packet := 42,
                              src := Address.unspecified, dest := Address.mac48 3,
                              protocolNumber := 9 }],
              diagnostics := [], ret := true } ∧
    chanABdetached.TransmitStart TxStatics.initial envAB 42 Address.unspecified
        (Address.mac48 3) 9 0
      = .ok { channel := chanABdetached,
              statics := { last_thread_id := some 1, last_time := 5 },
              scheduled := [{ context := 8, delay := 0, target := some 1, packet := 42,
                              src := Address.unspecified, dest := Address.mac48 3,
                              protocolNumber := 9 }],
              diagnostics := [], ret := true } :=
  ⟨rfl, rfl, rfl, rfl⟩

/-- C18: once the record at an index of a link has its flag cleared, then after
any finite sequence of `Attach`, `Detach` and `TransmitStart` calls the record
at that index still has its flag cleared (and still holds the same device): no
call sets a flag back. -/
theorem C18_detachment_is_terminal (s : LinkState) (k : Nat) (r : EmTestDeviceRec)
    (hk : s.channel.m_deviceList[k]? = some r) (hr : r.IsActive = false)
    (calls : List LinkCall) :
    ∃ r', (s.run calls).channel.m_deviceList[k]? = some r' ∧ r'.IsActive = false ∧
      r'.devicePtr = r.devicePtr :=
  run_keeps_inactive calls s k r hk hr

/-- C18 on the link whose device 1 was detached: device 1 is attached and
detached again, and a frame is sent; the record at index 1 stays inactive. -/
theorem C18_detachment_is_terminal_witness :
    ∃ r', (({ LinkState.fresh with channel := chanABdetached }).run
        [LinkCall.Attach (some 1), LinkCall.Detach (some 1), LinkCall.Detach (some 0),
         LinkCall.TransmitStart envAB 42 Address.unspecified (Address.mac48 3) 9 0]
      ).channel.m_deviceList[1]? = some r' ∧ r'.IsActive = false ∧
      r'.devicePtr = (some 1 : Ptr) :=
  C18_detachment_is_terminal { LinkState.fresh with channel := chanABdetached } 1
    { devicePtr := some 1, active := false } rfl rfl _

/-- C19: two `TransmitStart` calls on the same channel with the same arguments and
the same devices, whatever the current time, the recorded time and the threads
of each (current time below the recorded one included), return the same boolean
and schedule the same events, and leave the same channel; if one does not
return, the other ends with the same fault. This holds for every channel and
source index, so for two records and source index 0 or 1. -/
theorem C19_diagnostic_does_not_alter_delivery (ch : EmTestChannel)
    (st1 st2 : TxStatics) (now1 now2 : Time) (thread1 thread2 : ThreadId)
    (devices : List EmTestNetDevice) (p : Packet) (src dest : Address)
    (protocolNumber srcId : Nat) :
    (ch.TransmitStart st1 { now := now1, thread := thread1, devices := devices }
        p src dest protocolNumber srcId).map (fun o => (o.ret, o.scheduled, o.channel)) =
      (ch.TransmitStart st2 { now := now2, thread := thread2, devices := devices }
        p src dest protocolNumber srcId).map (fun o => (o.ret, o.scheduled, o.channel)) :=
  TransmitStart_statics_irrelevant ch st1 st2 now1 now2 thread1 thread2 devices p src dest
    protocolNumber srcId

/-- C20, as stated, fails: `TransmitStart` called at time 5 when the recorded time
is 9 returns with no diagnostic record written. -/
theorem C20_no_report_when_time_goes_back :
    envAB.now < ({ last_thread_id := some 2, last_time := 9 } : TxStatics).last_time ∧
    (chanAB.TransmitStart { last_thread_id := some 2, last_time := 9 } envAB 42
        Address.unspecified (Address.mac48 3) 9 0).map (fun o => (o.ret, o.diagnostics))
      = .ok (true, []) :=
  ⟨by decide, rfl⟩

/-- C20, amended: on a channel with two records and source index 0 or 1 (peer
device on a node), `TransmitStart` returns having written no diagnostic record,
whether the current time is below the recorded time or not; it stores the
current time and the calling thread as the new recorded time and caller. -/
theorem C20_TransmitStart_writes_no_diagnostic (ch : EmTestChannel) (st : TxStatics)
    (env : TxEnv) (p : Packet) (src dest : Address) (protocolNumber srcId : Nat)
    (peer : Nat) (dev : EmTestNetDevice) (node : Node)
    (hlen : ch.GetNDevices = 2) (hsrc : srcId = 0 ∨ srcId = 1)
    (hpeer : ch.GetDevice (srcId ^^^ 1) = .ok (some peer))
    (hdev : env.devices[peer]? = some dev) (hnode : dev.GetNode = some node) :
    srcId ^^^ 1 < ch.GetNDevices ∧
    ∃ out, ch.TransmitStart st env p src dest protocolNumber srcId = .ok out ∧
      out.diagnostics = [] ∧
      out.statics = { last_thread_id := some env.thread, last_time := env.now } := by
  obtain ⟨r, hr, hp⟩ := GetDevice_ok_inv _ _ _ hpeer
  have hmod : (srcId ^^^ 1) % 4294967296 = srcId ^^^ 1 := by
    rcases hsrc with h | h <;> subst h <;> rfl
  have hin : srcId ^^^ 1 < ch.GetNDevices := by
    rw [hlen]
    rcases hsrc with h | h <;> subst h <;> decide
  rw [← hmod] at hr
  exact ⟨hin, _, TransmitStart_of_peer ch st env p src dest protocolNumber srcId r peer dev
    node hr hp hdev hnode, rfl, rfl⟩

/-- C20 amended, at time 5 with recorded time 9 and at time 5 with recorded time 0. -/
theorem C20_TransmitStart_writes_no_diagnostic_witness :
    (0 ^^^ 1 < chanAB.GetNDevices ∧
      ∃ out, chanAB.TransmitStart { last_thread_id := some 2, last_time := 9 } envAB 42
          Address.unspecified (Address.mac48 3) 9 0 = .ok out ∧
        out.diagnostics = [] ∧
        out.statics = { last_thread_id := some envAB.thread, last_time := envAB.now }) ∧
    (1 ^^^ 1 < chanAB.GetNDevices ∧
      ∃ out, chanAB.TransmitStart TxStatics.initial envAB 42
          Address.unspecified (Address.mac48 3) 9 1 = .ok out ∧
        out.diagnostics = [] ∧
        out.statics = { last_thread_id := some envAB.thread, last_time := envAB.now }) :=
  ⟨C20_TransmitStart_writes_no_diagnostic chanAB { last_thread_id := some 2, last_time := 9 }
     envAB 42 Address.unspecified (Address.mac48 3) 9 0 1 devB { m_id := 8 } rfl
     (Or.inl rfl) rfl rfl rfl,
   C20_TransmitStart_writes_no_diagnostic chanAB TxStatics.initial
     envAB 42 Address.unspecified (Address.mac48 3) 9 1 0 devA { m_id := 7 } rfl
     (Or.inr rfl) rfl rfl rfl⟩


/-! ## Lemmas on the peer index and on the device queries -/

theorem xor_one_eq (n : Nat) : n ^^^ 1 = 2 * (n / 2) + (n % 2 + 1) % 2 := by
  have h1 : (n ^^^ 1) / 2 = n / 2 := by
    rw [Nat.xor_div_two]; simp
  have h2 : (n ^^^ 1) % 2 = (n + 1) % 2 := Nat.xor_mod_two_eq
  omega

theorem TransmitStart_of_outOfRange (ch : EmTestChannel) (st : TxStatics) (env : TxEnv)
    (p : Packet) (src dest : Address) (protocolNumber srcId : Nat)
    (h : ch.at ((srcId ^^^ 1) % 4294967296) = .error .outOfRange) :
    ch.TransmitStart st env p src dest protocolNumber srcId = .error .outOfRange := by
  simp [EmTestChannel.TransmitStart, h, bind, Except.bind, Except.map]

theorem SendFrom_ok_inv (w w' : World) (now : Time) (thread : ThreadId) (this : Nat)
    (packet : Packet) (src dest : Address) (protocolNumber : Nat) (r : Bool)
    (h : EmTestNetDevice.SendFrom w now thread this packet src dest protocolNumber
      = .ok (w', r)) :
    ∃ d c chan out, w.devices[this]? = some d ∧ d.m_channel = some c ∧
      w.channels[c]? = some chan ∧
      chan.TransmitStart w.statics { now := now, thread := thread, devices := w.devices }
        packet src dest protocolNumber d.m_deviceId = .ok out ∧
      w' = { w with channels := w.channels.set c out.channel,
                    statics := out.statics,
                    events := w.events ++ out.scheduled,
                    diagnostics := w.diagnostics ++ out.diagnostics } ∧
      r = true := by
  unfold EmTestNetDevice.SendFrom deref at h
  cases hd : w.devices[this]? with
  | none => simp [hd, bind, Except.bind] at h
  | some d =>
    cases hch : d.m_channel with
    | none => simp [hd, hch, bind, Except.bind] at h
    | some c =>
      cases hc : w.channels[c]? with
      | none => simp [hd, hch, hc, bind, Except.bind] at h
      | some chan =>
        cases htx : chan.TransmitStart w.statics
            { now := now, thread := thread, devices := w.devices }
            packet src dest protocolNumber d.m_deviceId with
        | error f => simp [hd, hch, hc, htx, bind, Except.bind] at h
        | ok out =>
          simp [hd, hch, hc, htx, bind, Except.bind, pure, Except.pure] at h
          exact ⟨d, c, chan, out, rfl, hch, hc, htx, h.1.symm, h.2⟩

/-! ## The claims, concluded -/

/-- C21: for every device, `IsBroadcast` and `IsMulticast` return true,
`GetBroadcast` returns ff:ff:ff:ff:ff:ff and `GetMtu` returns 1500; `SetMtu(m)`
returns true for every m (so for every 16-bit m), leaves the device as it was,
and `GetMtu` after it still returns 1500. -/
theorem C21_fixed_capabilities_and_mtu (d : EmTestNetDevice) (m : Nat) :
    d.IsBroadcast = true ∧ d.IsMulticast = true ∧
    d.GetBroadcast = Address.mac48 0xffffffffffff ∧
    d.GetMtu = 1500 ∧
    (d.SetMtu m).2 = true ∧ (d.SetMtu m).1.GetMtu = 1500 ∧ (d.SetMtu m).1 = d :=
  ⟨rfl, rfl, rfl, rfl, rfl, rfl, rfl⟩

/-- C22, as stated, fails: two successive `GetAddress()` calls on the same device,
starting from a fresh allocation counter, return the addresses 1 and 2, and the
first call has changed the counter. -/
theorem C22_GetAddress_differs_between_calls :
    (devA.GetAddress 0).1 = Address.mac48 1 ∧
    (devA.GetAddress (devA.GetAddress 0).2).1 = Address.mac48 2 ∧
    (devA.GetAddress 0).1 ≠ (devA.GetAddress (devA.GetAddress 0).2).1 ∧
    (devA.GetAddress 0).2 ≠ 0 := by
  decide

/-- C22, amended: `GetBroadcast`, `GetMulticast` (IPv4 and IPv6 groups),
`IsBroadcast`, `IsMulticast` and `GetMtu` return a value that depends on the
argument only, not on the device state, and they change nothing; `GetAddress`
returns a value for every device and counter, but each call advances the global
allocation counter and the next call returns a different address. -/
theorem C22_queries_fixed_GetAddress_fresh (mcast4 mcast6 : Nat → Address)
    (d d' : EmTestNetDevice) (group : Nat) (m_allocationIndex : Nat) :
    d.GetBroadcast = d'.GetBroadcast ∧
    d.GetMulticast mcast4 group = d'.GetMulticast mcast4 group ∧
    d.GetMulticast mcast4 group = mcast4 group ∧
    d.GetMulticast6 mcast6 group = d'.GetMulticast6 mcast6 group ∧
    d.GetMulticast6 mcast6 group = mcast6 group ∧
    d.IsBroadcast = d'.IsBroadcast ∧ d.IsMulticast = d'.IsMulticast ∧
    d.GetMtu = d'.GetMtu ∧
    d.GetAddress m_allocationIndex = d'.GetAddress m_allocationIndex ∧
    (d.GetAddress m_allocationIndex).2 ≠ m_allocationIndex ∧
    (d.GetAddress m_allocationIndex).1 ≠
      (d.GetAddress (d.GetAddress m_allocationIndex).2).1 := by
  refine ⟨rfl, rfl, rfl, rfl, rfl, rfl, rfl, rfl, rfl, ?_, ?_⟩
  · simp only [EmTestNetDevice.GetAddress, Mac48Address.Allocate]
    omega
  · simp only [EmTestNetDevice.GetAddress, Mac48Address.Allocate, ne_eq,
      Address.mac48.injEq]
    omega

/-- C24: for a 32-bit source index on a channel with exactly two records: when
the index is 0 or 1, index XOR 1 is 0 or 1, differs from the index, gives the
index back when XORed with 1 again, and the lookup there is in bounds and is the
record other than the sender's; when the index is 2 or more, index XOR 1 is 2 or
more, the lookup is past the end, and so `TransmitStart` ends there. -/
theorem C24_peer_index (ch : EmTestChannel) (srcId : Nat) (h32 : srcId < 4294967296)
    (hlen : ch.GetNDevices = 2) :
    (srcId = 0 ∨ srcId = 1 →
      (srcId ^^^ 1 = 0 ∨ srcId ^^^ 1 = 1) ∧ srcId ^^^ 1 ≠ srcId ∧
      (srcId ^^^ 1) ^^^ 1 = srcId ∧ srcId ^^^ 1 < ch.GetNDevices ∧
      ∃ rs rp, ch.at srcId = .ok rs ∧ ch.at ((srcId ^^^ 1) % 4294967296) = .ok rp ∧
        ch.m_deviceList = (if srcId = 0 then [rs, rp] else [rp, rs])) ∧
    (2 ≤ srcId →
      2 ≤ srcId ^^^ 1 ∧ ch.at ((srcId ^^^ 1) % 4294967296) = .error .outOfRange ∧
      ∀ (st : TxStatics) (env : TxEnv) (p : Packet) (src dest : Address) (proto : Nat),
        ch.TransmitStart st env p src dest proto srcId = .error .outOfRange) := by
  obtain ⟨l⟩ := ch
  simp only [EmTestChannel.GetNDevices] at hlen
  match l, hlen with
  | [x, y], _ =>
    constructor
    · intro hsrc
      rcases hsrc with h | h <;> subst h
      · exact ⟨Or.inr rfl, by decide, rfl, by simp [EmTestChannel.GetNDevices],
          x, y, rfl, rfl, rfl⟩
      · exact ⟨Or.inl rfl, by decide, rfl, by simp [EmTestChannel.GetNDevices],
          y, x, rfl, rfl, rfl⟩
    · intro hge
      have hx := xor_one_eq srcId
      have h2 : 2 ≤ srcId ^^^ 1 := by omega
      have hlt : srcId ^^^ 1 < 4294967296 := by omega
      have hat : EmTestChannel.at { m_deviceList := [x, y] }
          ((srcId ^^^ 1) % 4294967296) = .error .outOfRange := by
        rw [Nat.mod_eq_of_lt hlt]
        have hnone : ([x, y] : List EmTestDeviceRec)[srcId ^^^ 1]? = none :=
          List.getElem?_eq_none (by simpa using h2)
        simp [EmTestChannel.at, hnone]
      exact ⟨h2, hat, fun st env p src dest proto =>
        TransmitStart_of_outOfRange _ st env p src dest proto srcId hat⟩

/-- C24 on the channel of devices 0 and 1, for the source indices 0 and 5. -/
theorem C24_peer_index_witness :
    ((0 ^^^ 1 = 0 ∨ 0 ^^^ 1 = 1) ∧ 0 ^^^ 1 ≠ 0 ∧
      (0 ^^^ 1) ^^^ 1 = 0 ∧ 0 ^^^ 1 < chanAB.GetNDevices ∧
      ∃ rs rp, chanAB.at 0 = .ok rs ∧ chanAB.at ((0 ^^^ 1) % 4294967296) = .ok rp ∧
        chanAB.m_deviceList = (if 0 = 0 then [rs, rp] else [rp, rs])) ∧
    (2 ≤ 5 ^^^ 1 ∧ chanAB.at ((5 ^^^ 1) % 4294967296) = .error .outOfRange ∧
      ∀ (st : TxStatics) (env : TxEnv) (p : Packet) (src dest : Address) (proto : Nat),
        chanAB.TransmitStart st env p src dest proto 5 = .error .outOfRange) :=
  ⟨(C24_peer_index chanAB 0 (by decide) rfl).1 (Or.inl rfl),
   (C24_peer_index chanAB 5 (by decide) rfl).2 (by decide)⟩


/-- C25, as stated, fails: in the world with two links, a send on link 0 at time 9
records 9; a send on link 1 at time 4 then replaces the recorded time by 4, the
one value the next call on link 0 compares with. -/
theorem C25_other_link_overwrites_last_time :
    ∃ w1 w2,
      EmTestNetDevice.SendFrom worldTwoLinks 9 1 0 42 Address.unspecified (Address.mac48 2) 9
        = .ok (w1, true) ∧
      w1.statics.last_time = 9 ∧
      EmTestNetDevice.SendFrom w1 4 2 2 43 Address.unspecified (Address.mac48 2) 9
        = .ok (w2, true) ∧
      w2.statics.last_time = 4 ∧ w2.channels[0]? = w1.channels[0]? :=
  ⟨_, _, rfl, rfl, rfl, rfl, rfl⟩

/-- C25, amended: the recorded time is one value shared by all links. After a
returning `SendFrom` (so `TransmitStart`) of a device on link `l` at time `t`
the recorded time is `t`; after a further returning one of a device on another
link `l'` at time `t'` the recorded time is `t'`, while the channel object of
`l` is as it was before both calls. -/
theorem C25_last_time_is_shared_by_all_links (w w1 w2 : World) (a b l l' : Nat)
    (da db : EmTestNetDevice) (t t' : Time) (th th' : ThreadId) (p p' : Packet)
    (src dest src' dest' : Address) (proto proto' : Nat) (r1 r2 : Bool)
    (ha : w.devices[a]? = some da) (hal : da.m_channel = some l)
    (hb : w.devices[b]? = some db) (hbl : db.m_channel = some l') (hne : l ≠ l')
    (h1 : EmTestNetDevice.SendFrom w t th a p src dest proto = .ok (w1, r1))
    (h2 : EmTestNetDevice.SendFrom w1 t' th' b p' src' dest' proto' = .ok (w2, r2)) :
    w1.statics.last_time = t ∧ w2.statics.last_time = t' ∧
      w2.channels[l]? = w.channels[l]? := by
  obtain ⟨d1, c1, chan1, out1, hd1, hch1, hc1, htx1, hw1, _⟩ :=
    SendFrom_ok_inv _ _ _ _ _ _ _ _ _ _ h1
  obtain ⟨d2, c2, chan2, out2, hd2, hch2, hc2, htx2, hw2, _⟩ :=
    SendFrom_ok_inv _ _ _ _ _ _ _ _ _ _ h2
  obtain ⟨hch_out1, _, hst1, _, _⟩ := TransmitStart_ok_inv _ _ _ _ _ _ _ _ _ htx1
  obtain ⟨_, _, hst2, _, _⟩ := TransmitStart_ok_inv _ _ _ _ _ _ _ _ _ htx2
  have hda : d1 = da := by rw [ha] at hd1; injection hd1 with h; exact h.symm
  have hc1l : c1 = l := by rw [hda, hal] at hch1; injection hch1 with h; exact h.symm
  have hdevs : w1.devices = w.devices := by rw [hw1]
  have hdb : d2 = db := by rw [hdevs, hb] at hd2; injection hd2 with h; exact h.symm
  have hc2l : c2 = l' := by rw [hdb, hbl] at hch2; injection hch2 with h; exact h.symm
  subst hc1l; subst hc2l
  have hlt : c1 < w.channels.length := by
    by_contra hge
    rw [List.getElem?_eq_none (by omega)] at hc1
    cases hc1
  refine ⟨by rw [hw1]; simp [hst1], by rw [hw2]; simp [hst2], ?_⟩
  have e2 : w2.channels[c1]? = w1.channels[c1]? := by
    rw [hw2]
    simp only [List.getElem?_set_ne (Ne.symm hne)]
  have e1 : w1.channels[c1]? = w.channels[c1]? := by
    rw [hw1]
    simp only [List.getElem?_set_self hlt, hch_out1, hc1]
  rw [e2, e1]

/-- C25 amended, in the world with two links: device 0 (link 0) sends at time 9,
then device 2 (link 1) sends at time 4. -/
theorem C25_last_time_is_shared_by_all_links_witness :
    ∃ w1 w2 : World,
      EmTestNetDevice.SendFrom worldTwoLinks 9 1 0 42 Address.unspecified (Address.mac48 2) 9
        = .ok (w1, true) ∧
      EmTestNetDevice.SendFrom w1 4 2 2 43 Address.unspecified (Address.mac48 2) 9
        = .ok (w2, true) ∧
      w1.statics.last_time = 9 ∧ w2.statics.last_time = 4 ∧
      w2.channels[0]? = worldTwoLinks.channels[0]? :=
  ⟨{ worldTwoLinks with
      statics := { last_thread_id := some 1, last_time := 9 },
      events := [{ context := 8, delay := 0, target := some 1, packet := 42,
                   src := Address.unspecified, dest := Address.mac48 2,
                   protocolNumber := 9 }] },
   { worldTwoLinks with
      statics := { last_thread_id := some 2, last_time := 4 },
      events := [{ context := 8, delay := 0, target := some 1, packet := 42,
                   src := Address.unspecified, dest := Address.mac48 2,
                   protocolNumber := 9 },
                 { context := 8, delay := 0, target := some 3, packet := 43,
                   src := Address.unspecified, dest := Address.mac48 2,
                   protocolNumber := 9 }] },
   rfl, rfl,
   C25_last_time_is_shared_by_all_links worldTwoLinks _ _ 0 2 0 1
     { devA with m_channel := some 0, m_deviceId := 0 }
     { devA with m_channel := some 1, m_deviceId := 0 }
     9 4 1 2 42 43 Address.unspecified (Address.mac48 2) Address.unspecified
     (Address.mac48 2) 9 9 true true rfl rfl rfl rfl (by decide) rfl rfl⟩

/-- C26: on a channel with exactly two records and a source index 0 or 1 (the peer
device being on a node), `TransmitStart` returns and leaves the device list as
it was: same record count, and at every index the same device and the same
active flag. -/
theorem C26_TransmitStart_keeps_the_device_list (ch : EmTestChannel) (st : TxStatics)
    (env : TxEnv) (p : Packet) (src dest : Address) (protocolNumber srcId : Nat)
    (peer : Nat) (dev : EmTestNetDevice) (node : Node)
    (hlen : ch.GetNDevices = 2) (hsrc : srcId = 0 ∨ srcId = 1)
    (hpeer : ch.GetDevice (srcId ^^^ 1) = .ok (some peer))
    (hdev : env.devices[peer]? = some dev) (hnode : dev.GetNode = some node) :
    ∃ out, ch.TransmitStart st env p src dest protocolNumber srcId = .ok out ∧
      out.channel = ch ∧ out.channel.GetNDevices = 2 ∧
      ∀ i : Nat, out.channel.m_deviceList[i]? = ch.m_deviceList[i]? ∧
        out.channel.GetDevice i = ch.GetDevice i := by
  obtain ⟨r, hr, hp⟩ := GetDevice_ok_inv _ _ _ hpeer
  have hmod : (srcId ^^^ 1) % 4294967296 = srcId ^^^ 1 := by
    rcases hsrc with h | h <;> subst h <;> rfl
  rw [← hmod] at hr
  exact ⟨_, TransmitStart_of_peer ch st env p src dest protocolNumber srcId r peer dev
    node hr hp hdev hnode, rfl, hlen, fun i => ⟨rfl, rfl⟩⟩

/-- C26 on the channel of devices 0 and 1 where device 1 was detached: device 1
sends, and the list, flags included, is the same afterwards. -/
theorem C26_TransmitStart_keeps_the_device_list_witness :
    ∃ out, chanABdetached.TransmitStart TxStatics.initial envAB 42 Address.unspecified
        (Address.mac48 3) 9 1 = .ok out ∧
      out.channel = chanABdetached ∧ out.channel.GetNDevices = 2 ∧
      ∀ i : Nat, out.channel.m_deviceList[i]? = chanABdetached.m_deviceList[i]? ∧
        out.channel.GetDevice i = chanABdetached.GetDevice i :=
  C26_TransmitStart_keeps_the_device_list chanABdetached TxStatics.initial envAB 42
    Address.unspecified (Address.mac48 3) 9 1 0 devA { m_id := 7 } rfl (Or.inr rfl)
    rfl rfl rfl

/-- C27: for a device of the world: when it holds a promiscuous callback,
`Receive` invokes that callback once and nothing else, with this device, the
packet, the protocol number, the source and then the destination as given, and
packet type `PACKET_HOST`; when it holds none, `Receive` invokes nothing; the
world is the same after the call in both cases. The first case also holds right
after `SetPromiscReceiveCallback` registered the callback. -/
theorem C27_Receive_calls_only_the_promiscuous_sink (w : World) (this : Nat)
    (d : EmTestNetDevice) (packet : Packet) (src dest : Address) (proto : Nat)
    (hd : w.devices[this]? = some d) :
    (∀ cb, d.m_promiscRxCallback = some cb →
      EmTestNetDevice.Receive w this packet src dest proto =
        .ok (w, [SinkCall.promiscRx cb (some this) packet proto src dest
                   PacketType.PACKET_HOST])) ∧
    (d.m_promiscRxCallback = none →
      EmTestNetDevice.Receive w this packet src dest proto = .ok (w, [])) ∧
    (∀ cb, ∃ w', w.SetPromiscReceiveCallback this (some cb) = .ok w' ∧
      EmTestNetDevice.Receive w' this packet src dest proto =
        .ok (w', [SinkCall.promiscRx cb (some this) packet proto src dest
                    PacketType.PACKET_HOST])) := by
  have hlt : this < w.devices.length := by
    by_contra hge
    rw [List.getElem?_eq_none (by omega)] at hd
    cases hd
  have key : ∀ (w0 : World) (d0 : EmTestNetDevice) (cb : Nat),
      w0.devices[this]? = some d0 → d0.m_promiscRxCallback = some cb →
      EmTestNetDevice.Receive w0 this packet src dest proto =
        .ok (w0, [SinkCall.promiscRx cb (some this) packet proto src dest
                    PacketType.PACKET_HOST]) := by
    intro w0 d0 cb h0 hcb
    simp [EmTestNetDevice.Receive, deref_some _ _ _ h0, hcb, bind, Except.bind, pure,
      Except.pure]
  refine ⟨fun cb hcb => key w d cb hd hcb, ?_, ?_⟩
  · intro hnone
    simp [EmTestNetDevice.Receive, deref_some _ _ _ hd, hnone, bind, Except.bind, pure,
      Except.pure]
  · intro cb
    refine ⟨{ w with devices := w.devices.set this (d.SetPromiscReceiveCallback (some cb)).1 },
      ?_, ?_⟩
    · simp [World.SetPromiscReceiveCallback, deref_some _ _ _ hd, bind, Except.bind, pure,
        Except.pure]
    · exact key _ (d.SetPromiscReceiveCallback (some cb)).1 cb
        (by simp only [List.getElem?_set_self hlt]) rfl

/-- C27 in the world where device 0 holds the promiscuous callback 88 and device 1
holds none. -/
theorem C27_Receive_calls_only_the_promiscuous_sink_witness :
    EmTestNetDevice.Receive worldSinks 0 42 (Address.mac48 5) (Address.mac48 6) 9 =
      .ok (worldSinks, [SinkCall.promiscRx 88 (some 0) 42 9 (Address.mac48 5)
                          (Address.mac48 6) PacketType.PACKET_HOST]) ∧
    EmTestNetDevice.Receive worldSinks 1 42 (Address.mac48 5) (Address.mac48 6) 9 =
      .ok (worldSinks, []) :=
  ⟨(C27_Receive_calls_only_the_promiscuous_sink worldSinks 0 devBoth 42 (Address.mac48 5)
      (Address.mac48 6) 9 rfl).1 88 rfl,
   (C27_Receive_calls_only_the_promiscuous_sink worldSinks 1 devRxOnly 42 (Address.mac48 5)
      (Address.mac48 6) 9 rfl).2.1 rfl⟩


end ns3
